import Mathlib

/-!
# RazerGenie custom editor: grid model, row push and layout selection

A shallow embedding of `src/customeditor/customeditor.cpp`.

* The editor object is a record `CustomEditor`; every member function is a
  function on that record.  Effects on the outside world (calls to the device,
  notices shown with `util::showInfo`, `qWarning` lines, attempts to open a
  file) are appended to logs kept in the same record, so that they can be
  observed by theorems.
* The device (`libopenrazer::Device`) is a collaborator: its getters are
  fields, and the boolean answer to each mutating call is given by an oracle
  that sees every earlier call together with its answer.
* Widgets created with `new` are stored in `matrixPushButtons` (the code
  appends each one right after creating it); a pointer to a button is its
  index in that list.
* Indexing a `QVector` outside its bounds is undefined behaviour in the
  source; operations that would do so return `none`.
* `qDebug` output is not modelled.
-/

namespace RazerGenie

/-! ## Colours, device, buttons -/

/-- A `QColor`: either invalid (what a cancelled colour dialog returns) or an
RGB triple. -/
inductive QColor where
  | invalid
  | rgb (r g b : Nat)
  deriving DecidableEq

/-- The colour `QColor(Qt::black)`, which is the "off" colour of a cell. -/
def QColor.black : QColor := .rgb 0 0 0

/-- The colour `QColor(Qt::green)`. -/
def QColor.green : QColor := .rgb 0 255 0

/-- Validity test `QColor::isValid`. -/
def QColor.isValid : QColor → Bool
  | .invalid => false
  | .rgb _ _ _ => true

/-- Modelled from the spec: the type of `dimens` (declared in the missing
`customeditor.h` / libopenrazer headers).  The spec calls it the pair
`(rows, cols)` of the addressable matrix; `x` is the number of rows and `y`
the number of columns, both counts. -/
structure MatrixDimensions where
  x : Nat
  y : Nat
  deriving DecidableEq

/-- A mutating call made on the device. -/
inductive DeviceCall where
  | defineCustomFrame (row startCol endCol : Int) (colors : List QColor)
  | displayCustomFrame
  deriving DecidableEq

/-- The device collaborator (`libopenrazer::Device`, not part of the
repository).  `respond` is the boolean the device returns for a call, given
the calls made so far with their answers. -/
structure Device where
  getMatrixDimensions : MatrixDimensions
  getDeviceType : String
  getDeviceName : String
  getKeyboardLayout : String
  respond : List (DeviceCall × Bool) → DeviceCall → Bool

/-- Modelled from the spec: the enum `DrawStatus` of the missing
`customeditor.h`; the spec lists its values as `Set` and `Clear`. -/
inductive DrawStatus where
  | set
  | clear
  deriving DecidableEq

/-- Modelled from the spec: the class `MatrixPushButton` (its header and
implementation are not under `src/`).  It is a push button that remembers the
label it was created with, the matrix position given by `setMatrixPos` (none
until it is called), the fixed size given by `setFixedSize`, whether it is
enabled, and the colour given by `setButtonColor` (none after
`resetButtonColor`, the "off" appearance). -/
structure MatrixPushButton where
  label : String
  matrixPos : Option (Int × Int) := none
  fixedSize : Option (Int × Int) := none
  enabled : Bool := true
  buttonColor : Option QColor := none
  deriving DecidableEq

/-- The setter `MatrixPushButton::setMatrixPos`. -/
def MatrixPushButton.setMatrixPos (b : MatrixPushButton) (x y : Int) : MatrixPushButton :=
  { b with matrixPos := some (x, y) }

/-- The setter `QWidget::setFixedSize`. -/
def MatrixPushButton.setFixedSize (b : MatrixPushButton) (w h : Int) : MatrixPushButton :=
  { b with fixedSize := some (w, h) }

/-- The setter `QWidget::setEnabled`. -/
def MatrixPushButton.setEnabled (b : MatrixPushButton) (e : Bool) : MatrixPushButton :=
  { b with enabled := e }

/-- The setter `MatrixPushButton::setButtonColor`. -/
def MatrixPushButton.setButtonColor (b : MatrixPushButton) (c : QColor) : MatrixPushButton :=
  { b with buttonColor := some c }

/-- The reset `MatrixPushButton::resetButtonColor`. -/
def MatrixPushButton.resetButtonColor (b : MatrixPushButton) : MatrixPushButton :=
  { b with buttonColor := none }

/-! ## Layouts -/

/-- The four buttons of the main control bar. -/
inductive MainControl where
  | btnColor
  | btnSet
  | btnClear
  | btnClearAll
  deriving DecidableEq

/-- An item of a horizontal box: a matrix button (by its index in
`matrixPushButtons`), a main control button, or a fixed spacer. -/
inductive HItem where
  | button (ptr : Nat)
  | control (c : MainControl)
  | spacer (w h : Int)
  deriving DecidableEq

/-- A `QHBoxLayout`: whether `setAlignment(Qt::AlignLeft)` was called, and its
items in the order they were added. -/
structure QHBoxLayout where
  alignLeft : Bool := false
  items : List HItem := []
  deriving DecidableEq

/-- A `QLayout` as the builders return it: one horizontal box, or a vertical
box of horizontal boxes. -/
inductive QLayout where
  | hbox (h : QHBoxLayout)
  | vbox (rows : List QHBoxLayout)
  deriving DecidableEq

/-- A notice shown to the user with `util::showInfo`. -/
inductive Notice where
  | unknownKeyboardLayout
  | layoutFileFailedToLoad (jsonname errorString : String)
  deriving DecidableEq

/-- A line written with `qWarning`. -/
inductive Warning where
  | unsupportedCustomLayout (deviceName type : String) (x y : Nat)
  deriving DecidableEq

/-! ## The editor -/

/-- The state of a `CustomEditor`, followed by the logs of its effects. -/
structure CustomEditor where
  dimens : MatrixDimensions
  colors : List (List QColor)
  selectedColor : QColor
  drawStatus : DrawStatus
  matrixPushButtons : List MatrixPushButton := []
  /-- The palette colour of the colour button of the main controls. -/
  btnColor : QColor := QColor.green
  /-- The layouts added to the dialog's top-level vertical box. -/
  vbox : List QLayout := []
  deviceCalls : List (DeviceCall × Bool) := []
  notices : List Notice := []
  warnings : List Warning := []
  openedFiles : List String := []
  deriving DecidableEq

/-- A call on the device: the oracle answers, and the call is logged with its
answer. -/
def Device.call (device : Device) (c : DeviceCall) (s : CustomEditor) : Bool × CustomEditor :=
  let r := device.respond s.deviceCalls c
  (r, { s with deviceCalls := s.deviceCalls ++ [(c, r)] })

/-- The notice surface `util::showInfo`. -/
def showInfo (n : Notice) (s : CustomEditor) : CustomEditor :=
  { s with notices := s.notices ++ [n] }

/-- The element read `v[i]` of a `QVector` with an `int` index. -/
def vectorAt {α : Type} (v : List α) (i : Int) : Option α :=
  if 0 ≤ i then v[i.toNat]? else none

/-- The element write `v[i] = a` of a `QVector` with an `int` index. -/
def vectorSet {α : Type} (v : List α) (i : Int) (a : α) : Option (List α) :=
  if 0 ≤ i ∧ i.toNat < v.length then some (v.set i.toNat a) else none

/-- The write `colors[row][col] = c`. -/
def setCell (colors : List (List QColor)) (row col : Int) (c : QColor) :
    Option (List (List QColor)) := do
  let r ← vectorAt colors row
  let r ← vectorSet r col c
  vectorSet colors row r

/-- The row push `CustomEditor::updateKeyrow`. -/
def updateKeyrow (device : Device) (row : Int) (s : CustomEditor) :
    Option (Bool × CustomEditor) := do
  let rowColors ← vectorAt s.colors row
  let (defined, s) := device.call (.defineCustomFrame row 0 ((s.dimens.y : Int) - 1) rowColors) s
  if defined then
    some (device.call .displayCustomFrame s)
  else
    some (false, s)

/-- The slot `CustomEditor::clearAll`: one define call per row with a row of
black, one display call (all answers ignored), then the view and the model
are reset. -/
def clearAll (device : Device) (s : CustomEditor) : CustomEditor :=
  let blankColors : List QColor := List.replicate s.dimens.y QColor.black
  let s := (List.range s.dimens.x).foldl
    (fun s (i : Nat) =>
      (device.call (.defineCustomFrame (i : Int) 0 ((s.dimens.y : Int) - 1) blankColors) s).2) s
  let s := (device.call .displayCustomFrame s).2
  let s := { s with matrixPushButtons := s.matrixPushButtons.map MatrixPushButton.resetButtonColor }
  { s with colors := s.colors.map (fun color => color.map (fun _ => QColor.black)) }

/-- The slot `CustomEditor::colorButtonClicked`; `getColor` stands for the
dialog `QColorDialog::getColor`, which is given the old colour and returns the
user's choice (an invalid colour when the dialog is cancelled). -/
def colorButtonClicked (getColor : QColor → QColor) (s : CustomEditor) : CustomEditor :=
  let oldColor := s.btnColor
  let color := getColor oldColor
  if color.isValid then
    { s with btnColor := color, selectedColor := color }
  else
    s

/-- The slot `CustomEditor::onMatrixPushButtonClicked`; `sender` is the
clicked button.  The answer of the row push is dropped. -/
def onMatrixPushButtonClicked (device : Device) (sender : Nat) (s : CustomEditor) :
    Option CustomEditor := do
  let btn ← s.matrixPushButtons[sender]?
  let pos ← btn.matrixPos
  let s ← match s.drawStatus with
    | .set => do
      let colors ← setCell s.colors pos.1 pos.2 s.selectedColor
      some { s with
        colors := colors
        matrixPushButtons := s.matrixPushButtons.set sender (btn.setButtonColor s.selectedColor) }
    | .clear => do
      let colors ← setCell s.colors pos.1 pos.2 QColor.black
      some { s with
        colors := colors
        matrixPushButtons := s.matrixPushButtons.set sender btn.resetButtonColor }
  let (_, s) ← updateKeyrow device pos.1 s
  some s

/-- The slot `CustomEditor::setDrawStatusSet`. -/
def setDrawStatusSet (s : CustomEditor) : CustomEditor :=
  { s with drawStatus := .set }

/-- The slot `CustomEditor::setDrawStatusClear`. -/
def setDrawStatusClear (s : CustomEditor) : CustomEditor :=
  { s with drawStatus := .clear }

/-! ## JSON values (the part of `QJsonValue`, `QJsonObject`, `QJsonArray` and
`QJsonDocument` that the editor uses) -/

/-- A `QJsonValue`.  A number keeps what `toInt` can see of it: its value when
it is a whole number, nothing otherwise.  An object lists its entries in
iteration order. -/
inductive QJsonValue where
  | null
  | undefined
  | bool (b : Bool)
  | double (whole : Option Int)
  | string (s : String)
  | array (a : List QJsonValue)
  | object (o : List (String × QJsonValue))

/-- A `QJsonArray`. -/
abbrev QJsonArray := List QJsonValue

/-- A `QJsonObject`: its entries in iteration order (the order in which
`constBegin` to `constEnd` visits them; Qt keeps the entries sorted by key, so
this need not be the order of the document). -/
abbrev QJsonObject := List (String × QJsonValue)

/-- The test `QJsonValue::isNull`. -/
def QJsonValue.isNull : QJsonValue → Bool
  | .null => true
  | _ => false

/-- The conversion `QJsonValue::toString`: the string, or an empty string
for any other kind of value. -/
def QJsonValue.toQString : QJsonValue → String
  | .string s => s
  | _ => ""

/-- The conversion `QJsonValue::toInt`: a whole number within the range of
`int`, or 0 for anything else. -/
def QJsonValue.toInt : QJsonValue → Int
  | .double (some n) => if -2147483648 ≤ n ∧ n ≤ 2147483647 then n else 0
  | _ => 0

/-- The conversion `QJsonValue::toArray`: the array, or an empty array. -/
def QJsonValue.toArray : QJsonValue → QJsonArray
  | .array a => a
  | _ => []

/-- The conversion `QJsonValue::toObject`: the object, or an empty object. -/
def QJsonValue.toObject : QJsonValue → QJsonObject
  | .object o => o
  | _ => []

/-- The test `QJsonObject::contains`. -/
def QJsonObject.contains (o : QJsonObject) (key : String) : Bool :=
  o.any (fun e => e.1 == key)

/-- The read `QJsonObject::value`: undefined when the key is absent. -/
def QJsonObject.value (o : QJsonObject) (key : String) : QJsonValue :=
  match o.lookup key with
  | some v => v
  | none => .undefined

/-- The read `obj[key]` on an object that is not const: when the key is absent
a null value is created for it and returned. -/
def QJsonObject.ref (o : QJsonObject) (key : String) : QJsonValue :=
  match o.lookup key with
  | some v => v
  | none => .null

/-- The read `arr[i]` followed by a conversion: an undefined value when the
index is outside the array. -/
def QJsonArray.ref (a : QJsonArray) (i : Nat) : QJsonValue :=
  a.getD i .undefined

/-- A `QJsonDocument`: null (nothing parsed), or an array, or an object. -/
inductive QJsonDocument where
  | null
  | array (a : QJsonArray)
  | object (o : QJsonObject)

/-- The test `QJsonDocument::isNull`. -/
def QJsonDocument.isNull : QJsonDocument → Bool
  | .null => true
  | _ => false

/-- The read `QJsonDocument::object`: empty unless the document holds an
object. -/
def QJsonDocument.toObject : QJsonDocument → QJsonObject
  | .object o => o
  | _ => []

/-- What the editor reads from outside the process: the value of the macro
`RAZERGENIE_DATADIR` (from the missing `config.h`), the files (opening a path
for reading gives its text, or fails with an error string), and the parser
`QJsonDocument::fromJson`. -/
structure Env where
  datadir : String
  openFile : String → Except String String
  fromJson : String → QJsonDocument

/-! ## Layout builders -/

/-- The pair of statements `hbox->addWidget(btn); matrixPushButtons.append(btn);`
for a freshly created button: the box refers to the button by the index it
gets in `matrixPushButtons`. -/
def addMatrixPushButton (btn : MatrixPushButton) (acc : QHBoxLayout × CustomEditor) :
    QHBoxLayout × CustomEditor :=
  ({ acc.1 with items := acc.1.items ++ [.button acc.2.matrixPushButtons.length] },
   { acc.2 with matrixPushButtons := acc.2.matrixPushButtons ++ [btn] })

/-- The builder `CustomEditor::buildMainControls`. -/
def buildMainControls : QLayout :=
  .hbox { items := [.control .btnColor, .control .btnSet, .control .btnClear,
                    .control .btnClearAll] }

/-- The loader `CustomEditor::loadMatrixLayoutJson`: the development file is
opened first, then the production file; what was read is parsed. -/
def loadMatrixLayoutJson (env : Env) (jsonname : String) (s : CustomEditor) :
    QJsonDocument × CustomEditor :=
  let file_devel := "../../data/matrix_layouts/" ++ jsonname ++ ".json"
  let file_prod := env.datadir ++ "/matrix_layouts/" ++ jsonname ++ ".json"
  let s := { s with openedFiles := s.openedFiles ++ [file_devel] }
  match env.openFile file_devel with
  | .ok data => (env.fromJson data, s)
  | .error _ =>
    let s := { s with openedFiles := s.openedFiles ++ [file_prod] }
    match env.openFile file_prod with
    | .ok data => (env.fromJson data, s)
    | .error errorString =>
      (.null, showInfo (.layoutFileFailedToLoad jsonname errorString) s)

/-- The button that the inner loop of `buildLayoutFromJson` creates for a cell
object with a label: the statements from `new MatrixPushButton(...)` to
`btn->setEnabled(false)`. -/
def keyButtonFromJson (obj : QJsonObject) : MatrixPushButton :=
  let btn : MatrixPushButton := { label := (obj.ref "label").toQString }
  let width : Int := if obj.contains "width" then (obj.value "width").toInt else 60
  let height : Int := 63
  let btn := btn.setFixedSize width height
  let btn :=
    if obj.contains "matrix" then
      let arr := (obj.ref "matrix").toArray
      btn.setMatrixPos (arr.ref 0).toInt (arr.ref 1).toInt
    else btn
  if obj.contains "disabled" then btn.setEnabled false else btn

/-- The body of the inner loop of `buildLayoutFromJson`, for one key of a
row. -/
def buildKeyFromJson (acc : QHBoxLayout × CustomEditor) (jt : QJsonValue) :
    QHBoxLayout × CustomEditor :=
  let obj := jt.toObject
  if !(obj.ref "label").isNull then
    addMatrixPushButton (keyButtonFromJson obj) acc
  else
    ({ acc.1 with items := acc.1.items ++ [.spacer 66 69] }, acc.2)

/-- The builder `CustomEditor::buildLayoutFromJson`: one horizontal box per
entry of the object, one button or spacer per element of the entry. -/
def buildLayoutFromJson (layout : QJsonObject) (s : CustomEditor) : QLayout × CustomEditor :=
  let r := layout.foldl
    (fun (acc : List QHBoxLayout × CustomEditor) it =>
      let row := it.2.toArray
      let hbox : QHBoxLayout := { alignLeft := true }
      let r := row.foldl buildKeyFromJson (hbox, acc.2)
      (acc.1 ++ [r.1], r.2))
    ([], s)
  (.vbox r.1, r.2)

/-- The choice of the layout file name at the start of `buildKeyboard`. -/
def keyboardLayoutName (dimens : MatrixDimensions) : Option String :=
  if dimens.x = 6 ∧ dimens.y = 16 then some "razerblade16"
  else if dimens.x = 6 ∧ dimens.y = 22 then some "razerdefault22"
  else if dimens.x = 6 ∧ dimens.y = 25 then some "razerblade25"
  else none

/-- The notice of `buildKeyboard` for a keyboard layout that the daemon
reports as `unknown`. -/
def noticeUnknownKeyboardLayout (device : Device) (s : CustomEditor) : CustomEditor :=
  if device.getKeyboardLayout == "unknown" then showInfo .unknownKeyboardLayout s else s

/-- The statement `return buildLayoutFromJson(keyboardKeys[key].toObject());`
of `buildKeyboard`. -/
def buildKeyboardLang (keyboardKeys : QJsonObject) (key : String) (s : CustomEditor) :
    Option QLayout × CustomEditor :=
  let r := buildLayoutFromJson (keyboardKeys.ref key).toObject s
  (some r.1, r.2)

/-- The third part of `buildKeyboard`, once the layout descriptor is loaded:
the notice, then the choice of the variant. -/
def buildKeyboardVariant (device : Device) (keyboardKeysDoc : QJsonDocument)
    (s : CustomEditor) : Option QLayout × CustomEditor :=
  let kbdLayout := device.getKeyboardLayout
  let s := noticeUnknownKeyboardLayout device s
  let keyboardKeys := keyboardKeysDoc.toObject
  if keyboardKeys.contains kbdLayout then
    buildKeyboardLang keyboardKeys kbdLayout s
  else
    match ["US", "German"].find? (fun lang => keyboardKeys.contains lang) with
    | some lang => buildKeyboardLang keyboardKeys lang s
    | none => (none, s)

/-- The second and third part of `buildKeyboard`, once the name of the layout
file is chosen: the descriptor is loaded, and nothing is built if it is
null. -/
def buildKeyboardNamed (env : Env) (device : Device) (layout : String) (s : CustomEditor) :
    Option QLayout × CustomEditor :=
  let (keyboardKeysDoc, s) := loadMatrixLayoutJson env layout s
  if keyboardKeysDoc.isNull then (none, s)
  else buildKeyboardVariant device keyboardKeysDoc s

/-- The builder `CustomEditor::buildKeyboard`. -/
def buildKeyboard (env : Env) (device : Device) (s : CustomEditor) :
    Option QLayout × CustomEditor :=
  match keyboardLayoutName s.dimens with
  | none => (none, s)
  | some layout => buildKeyboardNamed env device layout s

/-- The builder `CustomEditor::buildMousemat`. -/
def buildMousemat (s : CustomEditor) : Option QLayout × CustomEditor :=
  if s.dimens.x ≠ 1 ∨ s.dimens.y ≠ 15 then (none, s)
  else
    let r := (List.range s.dimens.y).foldl
      (fun acc (i : Nat) =>
        let btn : MatrixPushButton := { label := toString i }
        let btn := btn.setMatrixPos 0 (i : Int)
        addMatrixPushButton btn acc)
      (({} : QHBoxLayout), s)
    (some (.hbox r.1), r.2)

/-- The button that the body of the inner loop of `buildFallback` creates for
the indices `i` and `j`: its label is `QString::number(i) + ":" +
QString::number(j)` and its matrix position is set to `(i, j)`. -/
def fallbackButton (i j : Nat) : MatrixPushButton :=
  let btn : MatrixPushButton := { label := toString i ++ ":" ++ toString j }
  btn.setMatrixPos (i : Int) (j : Int)

/-- The inner loop of `buildFallback`: the buttons of row `i`. -/
def buildFallbackRow (i : Nat) (s : CustomEditor) : QHBoxLayout × CustomEditor :=
  (List.range s.dimens.y).foldl
    (fun acc (j : Nat) => addMatrixPushButton (fallbackButton i j) acc)
    (({} : QHBoxLayout), s)

/-- The builder `CustomEditor::buildFallback`: a button for each index. -/
def buildFallback (s : CustomEditor) : QLayout × CustomEditor :=
  let r := (List.range s.dimens.x).foldl
    (fun (acc : List QHBoxLayout × CustomEditor) (i : Nat) =>
      let r := buildFallbackRow i acc.2
      (acc.1 ++ [r.1], r.2))
    ([], s)
  (.vbox r.1, r.2)

/-- The dispatch of the constructor on the discovery flag and the device
type: the fallback grid when matrix discovery is requested, else the builder
of the device type, else nothing (`deviceLayout` stays `nullptr`). -/
def buildDeviceLayout (env : Env) (device : Device) (launchMatrixDiscovery : Bool)
    (s : CustomEditor) : Option QLayout × CustomEditor :=
  let type := device.getDeviceType
  if launchMatrixDiscovery then
    let r := buildFallback s
    (some r.1, r.2)
  else if type == "keyboard" then buildKeyboard env device s
  else if type == "mousepad" then buildMousemat s
  else (none, s)

/-- The choice of the device layout in the constructor (from the read of the
device type to the substitution of the fallback layout). -/
def selectDeviceLayout (env : Env) (device : Device) (launchMatrixDiscovery : Bool)
    (s : CustomEditor) : QLayout × CustomEditor :=
  let type := device.getDeviceType
  let (deviceLayout, s) := buildDeviceLayout env device launchMatrixDiscovery s
  match deviceLayout with
  | some deviceLayout => (deviceLayout, s)
  | none =>
    let s := { s with warnings := s.warnings ++
      [.unsupportedCustomLayout device.getDeviceName type s.dimens.x s.dimens.y] }
    buildFallback s

/-- The first part of the constructor `CustomEditor::CustomEditor`: the
members are initialised and the main controls are added to the dialog. -/
def initCustomEditor (device : Device) : CustomEditor :=
  let dimens := device.getMatrixDimensions
  let s : CustomEditor :=
    { dimens := dimens
      colors := List.replicate dimens.x (List.replicate dimens.y QColor.black)
      selectedColor := QColor.green
      drawStatus := .set }
  { s with vbox := s.vbox ++ [buildMainControls] }

/-- The constructor `CustomEditor::CustomEditor`. -/
def newCustomEditor (env : Env) (device : Device) (launchMatrixDiscovery : Bool) :
    CustomEditor :=
  let s := initCustomEditor device
  let (deviceLayout, s) := selectDeviceLayout env device launchMatrixDiscovery s
  let s := { s with vbox := s.vbox ++ [deviceLayout] }
  clearAll device s

/-! ## Observations used in the statements -/

/-- The read `colors[row][col]` of the grid model. -/
def cellAt (colors : List (List QColor)) (row col : Int) : Option QColor :=
  (vectorAt colors row).bind (fun r => vectorAt r col)

/-- The grid model has the shape given by `dimens`: `x` rows of `y` cells
(what the constructor builds). -/
def GridWF (s : CustomEditor) : Prop :=
  s.colors.length = s.dimens.x ∧ ∀ r ∈ s.colors, r.length = s.dimens.y

/-- The colour a click writes into the model: the selected colour in mode
`set`, black in mode `clear`. -/
def clickColor (s : CustomEditor) : QColor :=
  match s.drawStatus with
  | .set => s.selectedColor
  | .clear => QColor.black

/-- The number of define calls in a log of device calls. -/
def defineCount (log : List (DeviceCall × Bool)) : Nat :=
  (log.filter (fun e => match e.1 with
    | .defineCustomFrame _ _ _ _ => true
    | .displayCustomFrame => false)).length

/-- The number of display calls in a log of device calls. -/
def displayCount (log : List (DeviceCall × Bool)) : Nat :=
  (log.filter (fun e => match e.1 with
    | .defineCustomFrame _ _ _ _ => false
    | .displayCustomFrame => true)).length

/-- What a click does to the clicked button: it takes the selected colour in
mode `set` and is reset in mode `clear`. -/
def clickedButton (s : CustomEditor) (btn : MatrixPushButton) : MatrixPushButton :=
  match s.drawStatus with
  | .set => btn.setButtonColor s.selectedColor
  | .clear => btn.resetButtonColor

/-! ## Concrete devices and editors used as examples -/

/-- A device with a matrix of the given size that answers every call with
the same boolean. -/
def constDevice (type : String) (x y : Nat) (answer : Bool) : Device :=
  { getMatrixDimensions := ⟨x, y⟩
    getDeviceType := type
    getDeviceName := "example"
    getKeyboardLayout := "US"
    respond := fun _ _ => answer }

/-- An environment in which no layout file can be opened. -/
def noFilesEnv : Env :=
  { datadir := "/usr/share/razergenie"
    openFile := fun _ => .error "No such file or directory"
    fromJson := fun _ => .null }

/-- A keyboard with a matrix of 6 rows and 22 columns that reports the given
physical layout and accepts every call. -/
def exampleKeyboard (kbdLayout : String) : Device :=
  { getMatrixDimensions := ⟨6, 22⟩
    getDeviceType := "keyboard"
    getDeviceName := "example"
    getKeyboardLayout := kbdLayout
    respond := fun _ _ => true }

/-- A descriptor with the variants `German` and `US`, of one row each. -/
def exampleKeys : QJsonObject :=
  [("German", .object [("row0", .array [.object [("label", .string "Z"),
      ("matrix", .array [.double (some 0), .double (some 1)])]])]),
   ("US", .object [("row0", .array [.object [("label", .string "Y"),
      ("matrix", .array [.double (some 0), .double (some 1)])], .object []])])]

/-- An environment in which the development file of `razerdefault22` opens
and parses to `exampleKeys`. -/
def exampleEnv : Env :=
  { datadir := "/usr/share/razergenie"
    openFile := fun path =>
      if path = "../../data/matrix_layouts/razerdefault22.json" then .ok "text"
      else .error "No such file or directory"
    fromJson := fun _ => .object exampleKeys }

/-- An environment in which both files of `razerdefault22` open: the
development file holds text that does not parse (the parser gives a null
document), the production file holds text that parses to `exampleKeys`. -/
def unparseableDevelEnv : Env :=
  { datadir := "/usr/share/razergenie"
    openFile := fun path =>
      if path = "../../data/matrix_layouts/razerdefault22.json" then .ok "not json"
      else if path = "/usr/share/razergenie/matrix_layouts/razerdefault22.json" then .ok "json"
      else .error "No such file or directory"
    fromJson := fun data => if data = "json" then .object exampleKeys else .null }

/-- A variant with one row of three cells: a labelled cell without a matrix
position, a labelled cell with a matrix position whose `disabled` field is
true, and a cell without a label. -/
def exampleVariant : QJsonObject :=
  [("row0", .array [
    .object [("label", .string "A")],
    .object [("label", .string "B"), ("disabled", .bool true),
      ("matrix", .array [.double (some 0), .double (some 1)])],
    .object []])]

/-- A 2 x 3 editor in mode `set` with selected colour red, one button for the
cell `(1, 2)`, on which nothing was called yet. -/
def exampleEditor : CustomEditor :=
  { dimens := ⟨2, 3⟩
    colors := [[.rgb 1 1 1, .rgb 2 2 2, .rgb 3 3 3], [.rgb 4 4 4, .rgb 5 5 5, .rgb 6 6 6]]
    selectedColor := .rgb 255 0 0
    drawStatus := .set
    matrixPushButtons := [{ label := "k", matrixPos := some (1, 2) }] }

/-! ## Shared lemmas -/

theorem updateKeyrow_spec (device : Device) (row : Int) (s : CustomEditor)
    (rowColors : List QColor) (a b : Bool)
    (hrow : vectorAt s.colors row = some rowColors)
    (ha : device.respond s.deviceCalls
      (.defineCustomFrame row 0 ((s.dimens.y : Int) - 1) rowColors) = a)
    (hb : device.respond
      (s.deviceCalls ++ [(.defineCustomFrame row 0 ((s.dimens.y : Int) - 1) rowColors, a)])
      .displayCustomFrame = b) :
    updateKeyrow device row s =
      some (a && b,
        { s with deviceCalls := s.deviceCalls ++
            (DeviceCall.defineCustomFrame row 0 ((s.dimens.y : Int) - 1) rowColors, a) ::
              (if a then [(DeviceCall.displayCustomFrame, b)] else []) }) := by
  unfold updateKeyrow
  simp only [hrow, Option.bind_eq_bind, Option.some_bind, Device.call, ha]
  cases a
  · simp
  · simp [hb]

theorem vectorAt_natCast {α : Type} (v : List α) (n : Nat) : vectorAt v (n : Int) = v[n]? := by
  simp [vectorAt]

theorem vectorAt_neg {α : Type} (v : List α) (i : Int) (h : i < 0) : vectorAt v i = none := by
  simp [vectorAt, h]

theorem vectorSet_natCast {α : Type} (v : List α) (n : Nat) (a : α) (h : n < v.length) :
    vectorSet v (n : Int) a = some (v.set n a) := by
  simp [vectorSet, h]

theorem setCell_natCast (colors : List (List QColor)) (i j : Nat) (r : List QColor)
    (c : QColor) (hr : colors[i]? = some r) (hj : j < r.length) :
    setCell colors (i : Int) (j : Int) c = some (colors.set i (r.set j c)) := by
  have hi : i < colors.length := by
    rcases List.getElem?_eq_some_iff.mp hr with ⟨h, _⟩
    exact h
  simp [setCell, vectorAt_natCast, hr, vectorSet_natCast _ _ _ hj, vectorSet_natCast _ _ _ hi]

theorem cellAt_natCast (colors : List (List QColor)) (i j : Nat) :
    cellAt colors (i : Int) (j : Int) = (colors[i]?).bind (fun r => r[j]?) := by
  simp [cellAt, vectorAt_natCast]

theorem cellAt_set_same (colors : List (List QColor)) (i j : Nat) (r : List QColor)
    (c : QColor) (hr : colors[i]? = some r) (hj : j < r.length) :
    cellAt (colors.set i (r.set j c)) (i : Int) (j : Int) = some c := by
  have hi : i < colors.length := by
    rcases List.getElem?_eq_some_iff.mp hr with ⟨h, _⟩
    exact h
  simp [cellAt_natCast, List.getElem?_set_self hi, List.getElem?_set_self hj]

theorem cellAt_set_other (colors : List (List QColor)) (i j : Nat) (r : List QColor)
    (c : QColor) (hr : colors[i]? = some r) (row col : Int)
    (hne : (row, col) ≠ ((i : Int), (j : Int))) :
    cellAt (colors.set i (r.set j c)) row col = cellAt colors row col := by
  have hi : i < colors.length := by
    rcases List.getElem?_eq_some_iff.mp hr with ⟨h, _⟩
    exact h
  rcases lt_or_le row 0 with hrow | hrow
  · simp [cellAt, vectorAt_neg _ _ hrow]
  rcases lt_or_le col 0 with hcol | hcol
  · simp [cellAt, vectorAt_neg _ _ hcol]
  obtain ⟨n, rfl⟩ := Int.eq_ofNat_of_zero_le hrow
  obtain ⟨m, rfl⟩ := Int.eq_ofNat_of_zero_le hcol
  rw [cellAt_natCast, cellAt_natCast]
  by_cases hin : i = n
  · subst hin
    have hjm : j ≠ m := by
      intro h
      exact hne (by rw [h])
    simp [List.getElem?_set_self hi, hr, List.getElem?_set_ne hjm]
  · simp [List.getElem?_set_ne hin]

theorem onMatrixPushButtonClicked_spec (device : Device) (sender : Nat) (s : CustomEditor)
    (btn : MatrixPushButton) (i j : Nat) (r : List QColor) (a b : Bool)
    (hbtn : s.matrixPushButtons[sender]? = some btn)
    (hpos : btn.matrixPos = some ((i : Int), (j : Int)))
    (hr : s.colors[i]? = some r) (hj : j < r.length)
    (ha : device.respond s.deviceCalls
      (.defineCustomFrame i 0 ((s.dimens.y : Int) - 1) (r.set j (clickColor s))) = a)
    (hb : device.respond
      (s.deviceCalls ++
        [(.defineCustomFrame i 0 ((s.dimens.y : Int) - 1) (r.set j (clickColor s)), a)])
      .displayCustomFrame = b) :
    onMatrixPushButtonClicked device sender s =
      some { s with
        colors := s.colors.set i (r.set j (clickColor s))
        matrixPushButtons := s.matrixPushButtons.set sender (clickedButton s btn)
        deviceCalls := s.deviceCalls ++
          (DeviceCall.defineCustomFrame i 0 ((s.dimens.y : Int) - 1)
              (r.set j (clickColor s)), a) ::
            (if a then [(DeviceCall.displayCustomFrame, b)] else []) } := by
  have hi : i < s.colors.length := by
    rcases List.getElem?_eq_some_iff.mp hr with ⟨h, _⟩
    exact h
  unfold onMatrixPushButtonClicked
  simp only [hbtn, hpos, Option.bind_eq_bind, Option.some_bind]
  cases hds : s.drawStatus
  · simp only [setCell_natCast _ _ _ _ _ hr hj, Option.some_bind]
    rw [updateKeyrow_spec device i _ (r.set j (clickColor s)) a b
      (by simp [vectorAt_natCast, List.getElem?_set_self hi, clickColor, hds])
      (by simpa using ha) (by simpa using hb)]
    simp [clickColor, clickedButton, hds]
  · simp only [setCell_natCast _ _ _ _ _ hr hj, Option.some_bind]
    rw [updateKeyrow_spec device i _ (r.set j (clickColor s)) a b
      (by simp [vectorAt_natCast, List.getElem?_set_self hi, clickColor, hds])
      (by simpa using ha) (by simpa using hb)]
    simp [clickColor, clickedButton, hds]

theorem gridWF_row (s : CustomEditor) (hwf : GridWF s) (row col : Int)
    (hr0 : 0 ≤ row) (hr1 : row < s.dimens.x) (hc0 : 0 ≤ col) (hc1 : col < s.dimens.y) :
    ∃ (i j : Nat) (r : List QColor), row = (i : Int) ∧ col = (j : Int) ∧
      s.colors[i]? = some r ∧ j < r.length ∧ r.length = s.dimens.y := by
  obtain ⟨i, rfl⟩ := Int.eq_ofNat_of_zero_le hr0
  obtain ⟨j, rfl⟩ := Int.eq_ofNat_of_zero_le hc0
  have hi : i < s.colors.length := by
    rw [hwf.1]
    exact_mod_cast hr1
  have hlen : (s.colors.get ⟨i, hi⟩).length = s.dimens.y :=
    hwf.2 _ (List.get_mem _ _ _)
  refine ⟨i, j, s.colors.get ⟨i, hi⟩, rfl, rfl, ?_, ?_, hlen⟩
  · simp [List.getElem?_eq_getElem hi]
  · rw [hlen]
    exact_mod_cast hc1

theorem defineLoop_eq (device : Device) (blankColors : List QColor) (l : List Nat)
    (s : CustomEditor) :
    ∃ log, l.foldl (fun s (i : Nat) => (device.call
        (.defineCustomFrame (i : Int) 0 ((s.dimens.y : Int) - 1) blankColors) s).2) s =
      { s with deviceCalls := log } := by
  induction l generalizing s with
  | nil => exact ⟨s.deviceCalls, rfl⟩
  | cons i l ih =>
    obtain ⟨log, hlog⟩ := ih (device.call
      (.defineCustomFrame (i : Int) 0 ((s.dimens.y : Int) - 1) blankColors) s).2
    exact ⟨log, by rw [List.foldl_cons, hlog]; rfl⟩

theorem clearAll_eq (device : Device) (s : CustomEditor) :
    ∃ log, clearAll device s =
      { s with
        deviceCalls := log
        matrixPushButtons := s.matrixPushButtons.map MatrixPushButton.resetButtonColor
        colors := s.colors.map (fun color => color.map (fun _ => QColor.black)) } := by
  obtain ⟨log, hlog⟩ := defineLoop_eq device (List.replicate s.dimens.y QColor.black)
    (List.range s.dimens.x) s
  unfold clearAll
  simp only [hlog]
  exact ⟨_, rfl⟩

theorem buildKeyFromJson_frame (acc : QHBoxLayout × CustomEditor) (jt : QJsonValue) :
    ∃ extra, (buildKeyFromJson acc jt).2 =
      { acc.2 with matrixPushButtons := acc.2.matrixPushButtons ++ extra } := by
  unfold buildKeyFromJson
  by_cases h : (!((jt.toObject).ref "label").isNull) = true
  · simp only [h, if_true, addMatrixPushButton]
    exact ⟨_, rfl⟩
  · simp only [h, if_false]
    exact ⟨[], by simp⟩

theorem rowFromJson_frame (row : List QJsonValue) (acc : QHBoxLayout × CustomEditor) :
    ∃ extra, (row.foldl buildKeyFromJson acc).2 =
      { acc.2 with matrixPushButtons := acc.2.matrixPushButtons ++ extra } := by
  induction row generalizing acc with
  | nil => exact ⟨[], by simp⟩
  | cons jt row ih =>
    obtain ⟨e1, h1⟩ := buildKeyFromJson_frame acc jt
    obtain ⟨e2, h2⟩ := ih (buildKeyFromJson acc jt)
    refine ⟨e1 ++ e2, ?_⟩
    rw [List.foldl_cons, h2, h1]
    simp

theorem rowsFromJson_frame (layout : QJsonObject) (acc : List QHBoxLayout × CustomEditor) :
    ∃ extra, (layout.foldl
      (fun (acc : List QHBoxLayout × CustomEditor) it =>
        let row := it.2.toArray
        let hbox : QHBoxLayout := { alignLeft := true }
        let r := row.foldl buildKeyFromJson (hbox, acc.2)
        (acc.1 ++ [r.1], r.2)) acc).2 =
      { acc.2 with matrixPushButtons := acc.2.matrixPushButtons ++ extra } := by
  induction layout generalizing acc with
  | nil => exact ⟨[], by simp⟩
  | cons it layout ih =>
    obtain ⟨e1, h1⟩ := rowFromJson_frame it.2.toArray (({ alignLeft := true } : QHBoxLayout), acc.2)
    obtain ⟨e2, h2⟩ := ih (acc.1 ++ [(it.2.toArray.foldl buildKeyFromJson
      (({ alignLeft := true } : QHBoxLayout), acc.2)).1],
      (it.2.toArray.foldl buildKeyFromJson (({ alignLeft := true } : QHBoxLayout), acc.2)).2)
    refine ⟨e1 ++ e2, ?_⟩
    rw [List.foldl_cons]
    simp only at h2 h1 ⊢
    rw [h2, h1]
    simp

theorem buildLayoutFromJson_frame (layout : QJsonObject) (s : CustomEditor) :
    ∃ extra, (buildLayoutFromJson layout s).2 =
      { s with matrixPushButtons := s.matrixPushButtons ++ extra } := by
  obtain ⟨extra, h⟩ := rowsFromJson_frame layout ([], s)
  exact ⟨extra, h⟩

theorem buildKeyboardVariant_frame (device : Device) (doc : QJsonDocument) (s : CustomEditor) :
    ∃ extra, (buildKeyboardVariant device doc s).2 =
      { noticeUnknownKeyboardLayout device s with
        matrixPushButtons := s.matrixPushButtons ++ extra } := by
  have hbtn : (noticeUnknownKeyboardLayout device s).matrixPushButtons = s.matrixPushButtons := by
    unfold noticeUnknownKeyboardLayout showInfo
    split <;> rfl
  unfold buildKeyboardVariant
  simp only
  split
  · obtain ⟨extra, h⟩ := buildLayoutFromJson_frame
      ((doc.toObject.ref device.getKeyboardLayout).toObject)
      (noticeUnknownKeyboardLayout device s)
    exact ⟨extra, by simp only [buildKeyboardLang, h, hbtn]⟩
  · split
    · rename_i lang _
      obtain ⟨extra, h⟩ := buildLayoutFromJson_frame ((doc.toObject.ref lang).toObject)
        (noticeUnknownKeyboardLayout device s)
      exact ⟨extra, by simp only [buildKeyboardLang, h, hbtn]⟩
    · exact ⟨[], by simp [← hbtn]⟩

theorem loadMatrixLayoutJson_openedFiles (env : Env) (jsonname : String) (s : CustomEditor) :
    ∃ rest, (loadMatrixLayoutJson env jsonname s).2.openedFiles =
        s.openedFiles ++ ("../../data/matrix_layouts/" ++ jsonname ++ ".json") :: rest ∧
      ∀ f ∈ rest, f = env.datadir ++ "/matrix_layouts/" ++ jsonname ++ ".json" := by
  unfold loadMatrixLayoutJson
  simp only
  split
  · exact ⟨[], by simp⟩
  · split
    · exact ⟨[env.datadir ++ "/matrix_layouts/" ++ jsonname ++ ".json"], by simp⟩
    · exact ⟨[env.datadir ++ "/matrix_layouts/" ++ jsonname ++ ".json"], by simp [showInfo]⟩

theorem buildKeyboardNamed_openedFiles (env : Env) (device : Device) (layout : String)
    (s : CustomEditor) :
    (buildKeyboardNamed env device layout s).2.openedFiles =
      (loadMatrixLayoutJson env layout s).2.openedFiles := by
  unfold buildKeyboardNamed
  simp only
  split
  · rfl
  · obtain ⟨extra, h⟩ := buildKeyboardVariant_frame device
      (loadMatrixLayoutJson env layout s).1 (loadMatrixLayoutJson env layout s).2
    rw [h]
    unfold noticeUnknownKeyboardLayout showInfo
    split <;> rfl

theorem addButtons_foldl (mk : Nat → MatrixPushButton) (n : Nat) (h0 : QHBoxLayout)
    (s : CustomEditor) :
    (List.range n).foldl (fun acc (j : Nat) => addMatrixPushButton (mk j) acc) (h0, s) =
      ({ h0 with items := h0.items ++
          (List.range n).map (fun j => HItem.button (s.matrixPushButtons.length + j)) },
       { s with matrixPushButtons := s.matrixPushButtons ++ (List.range n).map mk }) := by
  induction n with
  | zero => simp
  | succ n ih =>
    rw [List.range_succ, List.foldl_append, ih]
    simp [addMatrixPushButton]

theorem buildMousemat_eq (s : CustomEditor) (h : s.dimens = ⟨1, 15⟩) :
    buildMousemat s =
      (some (.hbox ⟨false, (List.range 15).map
          (fun i => HItem.button (s.matrixPushButtons.length + i))⟩),
       { s with
         matrixPushButtons := s.matrixPushButtons ++
           (List.range 15).map (fun (i : Nat) =>
             ({ label := toString i, matrixPos := some (0, (i : Int)) } : MatrixPushButton)) }) := by
  have hfold := addButtons_foldl
    (fun (i : Nat) => ({ label := toString i, matrixPos := some (0, (i : Int)) } :
      MatrixPushButton)) 15 {} s
  unfold buildMousemat
  simp only [h]
  simp only [MatrixPushButton.setMatrixPos] at hfold ⊢
  rw [if_neg (by decide)]
  simp only [hfold, List.nil_append]
  rw [← h]

theorem buildFallbackRow_eq (i : Nat) (s : CustomEditor) :
    buildFallbackRow i s =
      (⟨false, (List.range s.dimens.y).map
          (fun j => HItem.button (s.matrixPushButtons.length + j))⟩,
       { s with
         matrixPushButtons := s.matrixPushButtons ++
           (List.range s.dimens.y).map (fallbackButton i) }) := by
  unfold buildFallbackRow
  rw [addButtons_foldl (fallbackButton i) s.dimens.y {} s]
  simp

theorem length_gridButtons (n y : Nat) :
    ((List.range n).flatMap (fun i => (List.range y).map (fallbackButton i))).length = n * y := by
  induction n with
  | zero => simp
  | succ n ih =>
    rw [List.range_succ, List.flatMap_append, List.length_append, ih]
    simp [Nat.succ_mul]

theorem getElem?_gridButtons (n y i j : Nat) (hi : i < n) (hj : j < y) :
    ((List.range n).flatMap (fun i => (List.range y).map (fallbackButton i)))[i * y + j]? =
      some (fallbackButton i j) := by
  induction n with
  | zero => omega
  | succ n ih =>
    rw [List.range_succ, List.flatMap_append]
    rcases Nat.lt_succ_iff_lt_or_eq.mp hi with hlt | heq
    · have hk : i * y + j < n * y := by
        calc i * y + j < i * y + y := by omega
          _ = (i + 1) * y := by rw [Nat.succ_mul]
          _ ≤ n * y := Nat.mul_le_mul_right y hlt
      rw [List.getElem?_append_left (by rw [length_gridButtons]; exact hk)]
      exact ih hlt
    · subst heq
      rw [List.getElem?_append_right (by rw [length_gridButtons]; omega), length_gridButtons]
      simp [hj]

theorem mem_gridButtons (n y : Nat) (b : MatrixPushButton) :
    b ∈ (List.range n).flatMap (fun i => (List.range y).map (fallbackButton i)) ↔
      ∃ i j, i < n ∧ j < y ∧ b = fallbackButton i j := by
  simp only [List.mem_flatMap, List.mem_map, List.mem_range]
  constructor
  · rintro ⟨i, hi, j, hj, rfl⟩
    exact ⟨i, j, hi, hj, rfl⟩
  · rintro ⟨i, j, hi, hj, rfl⟩
    exact ⟨i, hi, j, hj, rfl⟩

theorem nodup_gridPositions (n y : Nat) :
    (((List.range n).flatMap (fun i => (List.range y).map (fallbackButton i))).map
      (fun b => b.matrixPos)).Nodup := by
  rw [List.map_flatMap]
  rw [List.nodup_flatMap]
  constructor
  · intro i _
    rw [List.map_map]
    refine (List.nodup_range y).map ?_
    intro j1 j2 h
    simpa [fallbackButton, MatrixPushButton.setMatrixPos] using h
  · refine (List.nodup_range n).pairwise_of_forall_ne ?_
    intro i1 _ i2 _ hne
    intro p h1 h2
    simp only [List.mem_map, List.mem_range, fallbackButton,
      MatrixPushButton.setMatrixPos] at h1 h2
    obtain ⟨_, ⟨j1, _, rfl⟩, rfl⟩ := h1
    obtain ⟨_, ⟨j2, _, rfl⟩, h⟩ := h2
    simp at h
    omega

theorem map_reset_gridButtons (n y : Nat) :
    ((List.range n).flatMap (fun i => (List.range y).map (fallbackButton i))).map
      MatrixPushButton.resetButtonColor =
    (List.range n).flatMap (fun i => (List.range y).map (fallbackButton i)) := by
  conv_rhs => rw [← List.map_id ((List.range n).flatMap
    (fun i => (List.range y).map (fallbackButton i)))]
  apply List.map_congr_left
  intro b hb
  obtain ⟨i, j, _, _, rfl⟩ := (mem_gridButtons n y b).mp hb
  rfl

theorem fallbackRows_foldl (s : CustomEditor) (n : Nat) :
    (List.range n).foldl
      (fun (acc : List QHBoxLayout × CustomEditor) (i : Nat) =>
        let r := buildFallbackRow i acc.2
        (acc.1 ++ [r.1], r.2))
      ([], s) =
    ((List.range n).map (fun i => (⟨false, (List.range s.dimens.y).map
        (fun j => HItem.button (s.matrixPushButtons.length + i * s.dimens.y + j))⟩ :
        QHBoxLayout)),
     { s with
       matrixPushButtons := s.matrixPushButtons ++
         (List.range n).flatMap (fun i => (List.range s.dimens.y).map (fallbackButton i)) }) := by
  induction n with
  | zero => simp
  | succ n ih =>
    rw [List.range_succ, List.foldl_append, ih]
    simp only [List.foldl_cons, List.foldl_nil, buildFallbackRow_eq, List.map_append,
      List.map_cons, List.map_nil, List.flatMap_append, List.flatMap_cons, List.flatMap_nil,
      List.append_nil, List.length_append, length_gridButtons, List.append_assoc]

theorem buildFallback_eq (s : CustomEditor) :
    buildFallback s =
      (.vbox ((List.range s.dimens.x).map (fun i => (⟨false, (List.range s.dimens.y).map
          (fun j => HItem.button (s.matrixPushButtons.length + i * s.dimens.y + j))⟩ :
          QHBoxLayout))),
       { s with
         matrixPushButtons := s.matrixPushButtons ++
           (List.range s.dimens.x).flatMap
             (fun i => (List.range s.dimens.y).map (fallbackButton i)) }) := by
  unfold buildFallback
  rw [fallbackRows_foldl]

theorem loadMatrixLayoutJson_frame (env : Env) (jsonname : String) (s : CustomEditor) :
    ∃ files notes, (loadMatrixLayoutJson env jsonname s).2 =
      { s with openedFiles := files, notices := notes } := by
  unfold loadMatrixLayoutJson
  simp only
  split
  · exact ⟨_, _, rfl⟩
  · split
    · exact ⟨_, _, rfl⟩
    · exact ⟨_, _, rfl⟩

theorem noticeUnknownKeyboardLayout_frame (device : Device) (s : CustomEditor) :
    ∃ notes, noticeUnknownKeyboardLayout device s = { s with notices := notes } := by
  unfold noticeUnknownKeyboardLayout showInfo
  split
  · exact ⟨_, rfl⟩
  · exact ⟨_, rfl⟩

theorem buildKeyboardVariant_none (device : Device) (doc : QJsonDocument) (s : CustomEditor)
    (h : (buildKeyboardVariant device doc s).1 = none) :
    (buildKeyboardVariant device doc s).2 = noticeUnknownKeyboardLayout device s := by
  unfold buildKeyboardVariant at h ⊢
  simp only at h ⊢
  split at h
  · simp [buildKeyboardLang] at h
  · split at h
    · simp [buildKeyboardLang] at h
    · rename_i hc _ hf
      simp only [hc, hf]
      rfl

theorem buildKeyboard_frame (env : Env) (device : Device) (s : CustomEditor) :
    (buildKeyboard env device s).2.dimens = s.dimens ∧
    (buildKeyboard env device s).2.vbox = s.vbox ∧
    ((buildKeyboard env device s).1 = none →
      (buildKeyboard env device s).2.matrixPushButtons = s.matrixPushButtons) := by
  unfold buildKeyboard
  split
  · exact ⟨rfl, rfl, fun _ => rfl⟩
  · rename_i layout _
    unfold buildKeyboardNamed
    obtain ⟨files, notes, hload⟩ := loadMatrixLayoutJson_frame env layout s
    simp only
    split
    · rw [hload]
      exact ⟨rfl, rfl, fun _ => rfl⟩
    · obtain ⟨extra, hvar⟩ := buildKeyboardVariant_frame device
        (loadMatrixLayoutJson env layout s).1 (loadMatrixLayoutJson env layout s).2
      obtain ⟨notes2, hnote⟩ := noticeUnknownKeyboardLayout_frame device
        (loadMatrixLayoutJson env layout s).2
      refine ⟨?_, ?_, ?_⟩
      · rw [hvar, hnote, hload]
      · rw [hvar, hnote, hload]
      · intro hnone
        rw [buildKeyboardVariant_none _ _ _ hnone, hnote, hload]

theorem buildMousemat_frame (s : CustomEditor) :
    (buildMousemat s).2.dimens = s.dimens ∧
    (buildMousemat s).2.vbox = s.vbox ∧
    ((buildMousemat s).1 = none → (buildMousemat s).2.matrixPushButtons = s.matrixPushButtons) := by
  by_cases h : s.dimens = ⟨1, 15⟩
  · rw [buildMousemat_eq s h]
    exact ⟨rfl, rfl, fun hn => by simp at hn⟩
  · have e : s.dimens = ⟨s.dimens.x, s.dimens.y⟩ := rfl
    have hn : buildMousemat s = (none, s) := by
      unfold buildMousemat
      rw [if_pos]
      by_contra hc
      push_neg at hc
      exact h (by rw [e, hc.1, hc.2])
    rw [hn]
    exact ⟨rfl, rfl, fun _ => rfl⟩

theorem buildDeviceLayout_frame (env : Env) (device : Device) (discovery : Bool)
    (s : CustomEditor) :
    (buildDeviceLayout env device discovery s).2.dimens = s.dimens ∧
    (buildDeviceLayout env device discovery s).2.vbox = s.vbox ∧
    ((buildDeviceLayout env device discovery s).1 = none →
      (buildDeviceLayout env device discovery s).2.matrixPushButtons = s.matrixPushButtons) := by
  unfold buildDeviceLayout
  cases discovery
  · by_cases hk : device.getDeviceType = "keyboard"
    · simpa [hk] using buildKeyboard_frame env device s
    · by_cases hm : device.getDeviceType = "mousepad"
      · simpa [hk, hm] using buildMousemat_frame s
      · simp [hk, hm]
  · simp [buildFallback_eq]

theorem selectDeviceLayout_some (env : Env) (device : Device) (discovery : Bool)
    (s : CustomEditor) (deviceLayout : QLayout)
    (h : (buildDeviceLayout env device discovery s).1 = some deviceLayout) :
    selectDeviceLayout env device discovery s =
      (deviceLayout, (buildDeviceLayout env device discovery s).2) := by
  unfold selectDeviceLayout
  simp only [h]

theorem selectDeviceLayout_none (env : Env) (device : Device) (discovery : Bool)
    (s : CustomEditor) (h : (buildDeviceLayout env device discovery s).1 = none) :
    ∃ s1 : CustomEditor, s1.dimens = s.dimens ∧ s1.vbox = s.vbox ∧
      s1.matrixPushButtons = s.matrixPushButtons ∧
      selectDeviceLayout env device discovery s = buildFallback s1 := by
  obtain ⟨hd, hv, hb⟩ := buildDeviceLayout_frame env device discovery s
  refine ⟨{ (buildDeviceLayout env device discovery s).2 with
    warnings := (buildDeviceLayout env device discovery s).2.warnings ++
      [.unsupportedCustomLayout device.getDeviceName device.getDeviceType
        (buildDeviceLayout env device discovery s).2.dimens.x
        (buildDeviceLayout env device discovery s).2.dimens.y] }, hd, hv, hb h, ?_⟩
  unfold selectDeviceLayout
  simp only [h]

theorem selectDeviceLayout_vbox (env : Env) (device : Device) (discovery : Bool)
    (s : CustomEditor) :
    (selectDeviceLayout env device discovery s).2.vbox = s.vbox := by
  cases h : (buildDeviceLayout env device discovery s).1 with
  | none =>
    obtain ⟨s1, _, hv, _, hsel⟩ := selectDeviceLayout_none env device discovery s h
    rw [hsel, buildFallback_eq]
    exact hv
  | some deviceLayout =>
    rw [selectDeviceLayout_some env device discovery s deviceLayout h]
    exact (buildDeviceLayout_frame env device discovery s).2.1

theorem selectDeviceLayout_fallback (env : Env) (device : Device) (discovery : Bool)
    (s : CustomEditor)
    (h : discovery = true ∨ (buildDeviceLayout env device discovery s).1 = none) :
    (selectDeviceLayout env device discovery s).1 =
      .vbox ((List.range s.dimens.x).map (fun i => (⟨false, (List.range s.dimens.y).map
        (fun j => HItem.button (s.matrixPushButtons.length + i * s.dimens.y + j))⟩ :
        QHBoxLayout))) ∧
    (selectDeviceLayout env device discovery s).2.matrixPushButtons =
      s.matrixPushButtons ++ (List.range s.dimens.x).flatMap
        (fun i => (List.range s.dimens.y).map (fallbackButton i)) := by
  by_cases hnone : (buildDeviceLayout env device discovery s).1 = none
  · obtain ⟨s1, hd, _, hb, hsel⟩ := selectDeviceLayout_none env device discovery s hnone
    rw [hsel, buildFallback_eq, hd, hb]
    exact ⟨rfl, rfl⟩
  · have hdisc : discovery = true := h.resolve_right hnone
    subst hdisc
    have hsel : selectDeviceLayout env device true s = buildFallback s := by
      unfold selectDeviceLayout buildDeviceLayout
      simp
    rw [hsel, buildFallback_eq]
    exact ⟨rfl, rfl⟩

theorem newCustomEditor_eq (env : Env) (device : Device) (discovery : Bool) :
    ∃ log, newCustomEditor env device discovery =
      { (selectDeviceLayout env device discovery (initCustomEditor device)).2 with
        vbox := [buildMainControls,
          (selectDeviceLayout env device discovery (initCustomEditor device)).1]
        deviceCalls := log
        matrixPushButtons :=
          (selectDeviceLayout env device discovery (initCustomEditor device)).2.matrixPushButtons.map
            MatrixPushButton.resetButtonColor
        colors :=
          (selectDeviceLayout env device discovery (initCustomEditor device)).2.colors.map
            (fun color => color.map (fun _ => QColor.black)) } := by
  have hv := selectDeviceLayout_vbox env device discovery (initCustomEditor device)
  obtain ⟨log, hlog⟩ := clearAll_eq device
    { (selectDeviceLayout env device discovery (initCustomEditor device)).2 with
      vbox := (selectDeviceLayout env device discovery (initCustomEditor device)).2.vbox ++
        [(selectDeviceLayout env device discovery (initCustomEditor device)).1] }
  refine ⟨log, ?_⟩
  unfold newCustomEditor
  simp only
  rw [hlog, hv]
  rfl

theorem selectDeviceLayout_discovery (env : Env) (device : Device) (s : CustomEditor) :
    selectDeviceLayout env device true s = buildFallback s := by
  unfold selectDeviceLayout buildDeviceLayout
  simp

theorem gridButtons_literal (n y : Nat) :
    (List.range n).flatMap (fun i => (List.range y).map (fun (j : Nat) =>
      ({ label := toString i ++ ":" ++ toString j, matrixPos := some ((i : Int), (j : Int)) } :
        MatrixPushButton))) =
    (List.range n).flatMap (fun i => (List.range y).map (fallbackButton i)) :=
  rfl

theorem defineCount_push (log : List (DeviceCall × Bool)) (row startCol endCol : Int)
    (colors : List QColor) (a b : Bool) :
    defineCount (log ++ (DeviceCall.defineCustomFrame row startCol endCol colors, a) ::
      (if a then [(DeviceCall.displayCustomFrame, b)] else [])) = defineCount log + 1 := by
  cases a <;> simp [defineCount, List.filter_append, List.filter_cons]

theorem rowFromJson_buttons (row : List QJsonValue) (acc : QHBoxLayout × CustomEditor) :
    (row.foldl buildKeyFromJson acc).2 =
      { acc.2 with
        matrixPushButtons := acc.2.matrixPushButtons ++
          ((row.map QJsonValue.toObject).filter
            (fun obj => !(obj.ref "label").isNull)).map keyButtonFromJson } := by
  induction row generalizing acc with
  | nil => simp
  | cons jt row ih =>
    rw [List.foldl_cons, ih]
    by_cases h : (!((jt.toObject).ref "label").isNull) = true
    · simp [buildKeyFromJson, h, addMatrixPushButton, List.filter_cons]
    · simp [buildKeyFromJson, h, List.filter_cons]

theorem rowsFromJson_buttons (layout : QJsonObject) (acc : List QHBoxLayout × CustomEditor) :
    (layout.foldl
      (fun (acc : List QHBoxLayout × CustomEditor) it =>
        let row := it.2.toArray
        let hbox : QHBoxLayout := { alignLeft := true }
        let r := row.foldl buildKeyFromJson (hbox, acc.2)
        (acc.1 ++ [r.1], r.2)) acc).2 =
      { acc.2 with
        matrixPushButtons := acc.2.matrixPushButtons ++
          layout.flatMap (fun it =>
            ((it.2.toArray.map QJsonValue.toObject).filter
              (fun obj => !(obj.ref "label").isNull)).map keyButtonFromJson) } := by
  induction layout generalizing acc with
  | nil => simp
  | cons it layout ih =>
    rw [List.foldl_cons, ih]
    simp only [rowFromJson_buttons, List.flatMap_cons, List.append_assoc]

theorem contains_of_lookup (o : QJsonObject) (key : String) (v : QJsonValue)
    (h : o.lookup key = some v) : o.contains key = true := by
  induction o with
  | nil => simp [List.lookup] at h
  | cons e o ih =>
    obtain ⟨k, w⟩ := e
    by_cases hk : key = k
    · simp [QJsonObject.contains, hk]
    · have hne : (key == k) = false := by simp [hk]
      have hl : List.lookup key ((k, w) :: o) = List.lookup key o := by
        simp [List.lookup, hne]
      rw [hl] at h
      have := ih h
      simp only [QJsonObject.contains, List.any_cons, Bool.or_eq_true] at this ⊢
      exact Or.inr this

theorem buildLayoutFromJson_snd (layout : QJsonObject) (s : CustomEditor) :
    (buildLayoutFromJson layout s).2 =
      { s with
        matrixPushButtons := s.matrixPushButtons ++
          layout.flatMap (fun it =>
            ((it.2.toArray.map QJsonValue.toObject).filter
              (fun obj => !(obj.ref "label").isNull)).map keyButtonFromJson) } :=
  rowsFromJson_buttons layout ([], s)

theorem lookup_of_contains (o : QJsonObject) (key : String) (h : o.contains key = true) :
    ∃ v, o.lookup key = some v := by
  induction o with
  | nil => simp [QJsonObject.contains] at h
  | cons e o ih =>
    obtain ⟨k, w⟩ := e
    by_cases hk : key = k
    · exact ⟨w, by simp [List.lookup, hk]⟩
    · have hne : (key == k) = false := by simp [hk]
      have hkn : (k == key) = false := by simp [Ne.symm hk]
      have hc : QJsonObject.contains o key = true := by
        simpa [QJsonObject.contains, hkn] using h
      obtain ⟨v, hv⟩ := ih hc
      exact ⟨v, by simp [List.lookup, hne, hv]⟩

/-! ## C1: the row push -/

/-- C1 (as stated, refuted): on a device that answers false to the define
call, `updateKeyrow` returns false after one define call and no display
call. -/
theorem updateKeyrow_skips_display_counterexample :
    (updateKeyrow (constDevice "keyboard" 2 3 false) 1 exampleEditor).map
        (fun r => (r.1, defineCount r.2.deviceCalls, displayCount r.2.deviceCalls)) =
      some (false, 1, 0) := by
  decide

/-- C1 (amended): for every row `row` of the grid and every pair of answers
`a` (to the define call) and `b` (to a display call made after it),
`updateKeyrow` first makes exactly one define call for that row, from column
0 to column `cols - 1` with the colours of the row; it then makes exactly one
display call if `a` is true and none if `a` is false; it returns `a && b`,
that is, true exactly when the define call and the display call both returned
true; and it changes nothing else. -/
theorem updateKeyrow_calls (device : Device) (row : Int) (s : CustomEditor)
    (rowColors : List QColor) (a b : Bool)
    (hrow : vectorAt s.colors row = some rowColors)
    (ha : device.respond s.deviceCalls
      (.defineCustomFrame row 0 ((s.dimens.y : Int) - 1) rowColors) = a)
    (hb : device.respond
      (s.deviceCalls ++ [(.defineCustomFrame row 0 ((s.dimens.y : Int) - 1) rowColors, a)])
      .displayCustomFrame = b) :
    updateKeyrow device row s =
      some (a && b,
        { s with deviceCalls := s.deviceCalls ++
            (DeviceCall.defineCustomFrame row 0 ((s.dimens.y : Int) - 1) rowColors, a) ::
              (if a then [(DeviceCall.displayCustomFrame, b)] else []) }) :=
  updateKeyrow_spec device row s rowColors a b hrow ha hb

/-- Witness for C1 (amended): row 1 of the example editor on a device that
accepts every call. -/
theorem updateKeyrow_calls_witness :
    updateKeyrow (constDevice "keyboard" 2 3 true) 1 exampleEditor =
      some (true && true,
        { exampleEditor with deviceCalls := exampleEditor.deviceCalls ++
            (DeviceCall.defineCustomFrame 1 0 ((exampleEditor.dimens.y : Int) - 1)
                [.rgb 4 4 4, .rgb 5 5 5, .rgb 6 6 6], true) ::
              (if true then [(DeviceCall.displayCustomFrame, true)] else []) }) :=
  updateKeyrow_calls (constDevice "keyboard" 2 3 true) 1 exampleEditor
    [.rgb 4 4 4, .rgb 5 5 5, .rgb 6 6 6] true true (by decide) rfl rfl

/-! ## C2: painting a cell -/

/-- C2: in a grid of `rows` by `cols` cells, a click on a button at an in-bounds
position `(row, col)` in mode `set` succeeds, and afterwards the model holds
the selected colour at `(row, col)` while every other cell reads as before. -/
theorem click_set_paints_cell (device : Device) (sender : Nat) (s : CustomEditor)
    (btn : MatrixPushButton) (row col : Int) (c : QColor)
    (hwf : GridWF s)
    (hbtn : s.matrixPushButtons[sender]? = some btn)
    (hpos : btn.matrixPos = some (row, col))
    (hr0 : 0 ≤ row) (hr1 : row < s.dimens.x) (hc0 : 0 ≤ col) (hc1 : col < s.dimens.y)
    (hmode : s.drawStatus = .set) (hcolor : s.selectedColor = c) :
    ∃ s1, onMatrixPushButtonClicked device sender s = some s1 ∧
      cellAt s1.colors row col = some c ∧
      ∀ row1 col1, (row1, col1) ≠ (row, col) →
        cellAt s1.colors row1 col1 = cellAt s.colors row1 col1 := by
  obtain ⟨i, j, r, rfl, rfl, hr, hj, _⟩ := gridWF_row s hwf row col hr0 hr1 hc0 hc1
  have hcc : clickColor s = c := by simp [clickColor, hmode, hcolor]
  refine ⟨_, onMatrixPushButtonClicked_spec device sender s btn i j r _ _ hbtn hpos hr hj
    rfl rfl, ?_, ?_⟩
  · simpa [hcc] using cellAt_set_same s.colors i j r c hr hj
  · intro row1 col1 hne
    simpa [hcc] using cellAt_set_other s.colors i j r c hr row1 col1 hne

/-- Witness for C2: a click on the button of cell `(1, 2)` of the example
editor, whose selected colour is red. -/
theorem click_set_paints_cell_witness :
    ∃ s1, onMatrixPushButtonClicked (constDevice "keyboard" 2 3 true) 0 exampleEditor = some s1 ∧
      cellAt s1.colors 1 2 = some (.rgb 255 0 0) ∧
      ∀ row1 col1, (row1, col1) ≠ ((1 : Int), (2 : Int)) →
        cellAt s1.colors row1 col1 = cellAt exampleEditor.colors row1 col1 :=
  click_set_paints_cell (constDevice "keyboard" 2 3 true) 0 exampleEditor
    { label := "k", matrixPos := some (1, 2) } 1 2 (.rgb 255 0 0)
    ⟨rfl, by decide⟩ rfl rfl (by decide) (by decide) (by decide) (by decide) rfl rfl

/-! ## C3: clearing the grid -/

/-- C3: whatever the grid holds and whatever the device answers, after
`clearAll` the dimensions are the same, the model has the same number of rows,
every row has the length it had, and every cell that exists reads black (a
cell exists after the call exactly when it existed before). -/
theorem clearAll_blanks_grid (device : Device) (s : CustomEditor) :
    (clearAll device s).dimens = s.dimens ∧
    (clearAll device s).colors.length = s.colors.length ∧
    (∀ row : Int, (vectorAt (clearAll device s).colors row).map List.length =
      (vectorAt s.colors row).map List.length) ∧
    (∀ row col : Int, cellAt (clearAll device s).colors row col =
      (cellAt s.colors row col).map (fun _ => QColor.black)) := by
  obtain ⟨log, hlog⟩ := clearAll_eq device s
  rw [hlog]
  refine ⟨rfl, by simp, ?_, ?_⟩
  · intro row
    rcases lt_or_le row 0 with hrow | hrow
    · simp [vectorAt_neg _ _ hrow]
    · obtain ⟨n, rfl⟩ := Int.eq_ofNat_of_zero_le hrow
      simp only [vectorAt_natCast, List.getElem?_map]
      cases s.colors[n]? <;> simp
  · intro row col
    rcases lt_or_le row 0 with hrow | hrow
    · simp [cellAt, vectorAt_neg _ _ hrow]
    rcases lt_or_le col 0 with hcol | hcol
    · simp [cellAt, vectorAt_neg _ _ hcol]
    obtain ⟨n, rfl⟩ := Int.eq_ofNat_of_zero_le hrow
    obtain ⟨m, rfl⟩ := Int.eq_ofNat_of_zero_le hcol
    simp only [cellAt_natCast, List.getElem?_map]
    cases hn : s.colors[n]? with
    | none => simp
    | some r =>
      simp only [Option.map_some', Option.some_bind, List.getElem?_map]

/-! ## C4: a click pushes the clicked row once -/

/-- C4: a click on a button at an in-bounds position `(row, col)`, in either
mode, succeeds; the device calls it adds start with one define call for row
`row`, from column 0 to column `cols - 1`, carrying the row of the model as
updated by the click (of length `cols`, with the selected colour at `col` in
mode `set` and black at `col` in mode `clear`); the only call that can follow
it is one display call, so the click adds exactly one define call and no other
row is pushed. -/
theorem click_pushes_clicked_row (device : Device) (sender : Nat) (s : CustomEditor)
    (btn : MatrixPushButton) (row col : Int)
    (hwf : GridWF s)
    (hbtn : s.matrixPushButtons[sender]? = some btn)
    (hpos : btn.matrixPos = some (row, col))
    (hr0 : 0 ≤ row) (hr1 : row < s.dimens.x) (hc0 : 0 ≤ col) (hc1 : col < s.dimens.y) :
    ∃ (s1 : CustomEditor) (updatedRow : List QColor) (a b : Bool),
      onMatrixPushButtonClicked device sender s = some s1 ∧
      vectorAt s1.colors row = some updatedRow ∧
      updatedRow.length = s.dimens.y ∧
      (s.drawStatus = .set → vectorAt updatedRow col = some s.selectedColor) ∧
      (s.drawStatus = .clear → vectorAt updatedRow col = some QColor.black) ∧
      s1.deviceCalls = s.deviceCalls ++
        (DeviceCall.defineCustomFrame row 0 ((s.dimens.y : Int) - 1) updatedRow, a) ::
          (if a then [(DeviceCall.displayCustomFrame, b)] else []) ∧
      defineCount s1.deviceCalls = defineCount s.deviceCalls + 1 := by
  obtain ⟨i, j, r, rfl, rfl, hr, hj, hlen⟩ := gridWF_row s hwf row col hr0 hr1 hc0 hc1
  have hi : i < s.colors.length := by
    rcases List.getElem?_eq_some_iff.mp hr with ⟨h, _⟩
    exact h
  refine ⟨_, r.set j (clickColor s), _, _,
    onMatrixPushButtonClicked_spec device sender s btn i j r _ _ hbtn hpos hr hj rfl rfl,
    ?_, ?_, ?_, ?_, rfl, defineCount_push _ _ _ _ _ _ _⟩
  · simp [vectorAt_natCast, List.getElem?_set_self hi]
  · simp [hlen]
  · intro hmode
    simp [vectorAt_natCast, List.getElem?_set_self hj, clickColor, hmode]
  · intro hmode
    simp [vectorAt_natCast, List.getElem?_set_self hj, clickColor, hmode]

/-- Witness for C4: a click on the button of cell `(1, 2)` of the example
editor. -/
theorem click_pushes_clicked_row_witness :
    ∃ (s1 : CustomEditor) (updatedRow : List QColor) (a b : Bool),
      onMatrixPushButtonClicked (constDevice "keyboard" 2 3 true) 0 exampleEditor = some s1 ∧
      vectorAt s1.colors 1 = some updatedRow ∧
      updatedRow.length = exampleEditor.dimens.y ∧
      (exampleEditor.drawStatus = .set →
        vectorAt updatedRow 2 = some exampleEditor.selectedColor) ∧
      (exampleEditor.drawStatus = .clear → vectorAt updatedRow 2 = some QColor.black) ∧
      s1.deviceCalls = exampleEditor.deviceCalls ++
        (DeviceCall.defineCustomFrame 1 0 ((exampleEditor.dimens.y : Int) - 1) updatedRow, a) ::
          (if a then [(DeviceCall.displayCustomFrame, b)] else []) ∧
      defineCount s1.deviceCalls = defineCount exampleEditor.deviceCalls + 1 :=
  click_pushes_clicked_row (constDevice "keyboard" 2 3 true) 0 exampleEditor
    { label := "k", matrixPos := some (1, 2) } 1 2
    ⟨rfl, by decide⟩ rfl rfl (by decide) (by decide) (by decide) (by decide)

/-! ## C5: the choice of the keyboard variant -/

/-- C5: when the layout file named after the dimensions loads to a descriptor
`doc` that is not null, let `s2` be the editor after the load and after the
notice for the layout `unknown`.  If the descriptor contains the reported
layout identifier as a key, `buildKeyboard` yields a layout, and that layout,
the resulting editor and the buttons added are those that
`buildLayoutFromJson` builds from the value stored under that key.  Otherwise,
if the descriptor contains the key `US`, they are those built from the value
stored under `US`; otherwise, if it contains the key `German`, those built from
the value stored under `German`; otherwise `buildKeyboard` yields no layout
and the editor is `s2`. -/
theorem buildKeyboard_selects_variant (env : Env) (device : Device) (s : CustomEditor)
    (name : String) (doc : QJsonDocument) (s1 s2 : CustomEditor)
    (hname : keyboardLayoutName s.dimens = some name)
    (hload : loadMatrixLayoutJson env name s = (doc, s1))
    (hdoc : doc.isNull = false)
    (hs2 : s2 = if device.getKeyboardLayout = "unknown"
      then { s1 with notices := s1.notices ++ [Notice.unknownKeyboardLayout] } else s1) :
    (doc.toObject.contains device.getKeyboardLayout = true →
      ∃ v, doc.toObject.lookup device.getKeyboardLayout = some v ∧
        buildKeyboard env device s =
          (some (buildLayoutFromJson v.toObject s2).1, (buildLayoutFromJson v.toObject s2).2) ∧
        (buildKeyboard env device s).2.matrixPushButtons =
          s.matrixPushButtons ++ v.toObject.flatMap (fun it =>
            ((it.2.toArray.map QJsonValue.toObject).filter
              (fun obj => !(obj.ref "label").isNull)).map keyButtonFromJson)) ∧
    (doc.toObject.contains device.getKeyboardLayout = false →
      doc.toObject.contains "US" = true →
      ∃ v, doc.toObject.lookup "US" = some v ∧
        buildKeyboard env device s =
          (some (buildLayoutFromJson v.toObject s2).1, (buildLayoutFromJson v.toObject s2).2) ∧
        (buildKeyboard env device s).2.matrixPushButtons =
          s.matrixPushButtons ++ v.toObject.flatMap (fun it =>
            ((it.2.toArray.map QJsonValue.toObject).filter
              (fun obj => !(obj.ref "label").isNull)).map keyButtonFromJson)) ∧
    (doc.toObject.contains device.getKeyboardLayout = false →
      doc.toObject.contains "US" = false → doc.toObject.contains "German" = true →
      ∃ v, doc.toObject.lookup "German" = some v ∧
        buildKeyboard env device s =
          (some (buildLayoutFromJson v.toObject s2).1, (buildLayoutFromJson v.toObject s2).2) ∧
        (buildKeyboard env device s).2.matrixPushButtons =
          s.matrixPushButtons ++ v.toObject.flatMap (fun it =>
            ((it.2.toArray.map QJsonValue.toObject).filter
              (fun obj => !(obj.ref "label").isNull)).map keyButtonFromJson)) ∧
    (doc.toObject.contains device.getKeyboardLayout = false →
      doc.toObject.contains "US" = false → doc.toObject.contains "German" = false →
      buildKeyboard env device s = (none, s2)) := by
  have hb : buildKeyboard env device s = buildKeyboardVariant device doc s1 := by
    simp [buildKeyboard, hname, buildKeyboardNamed, hload, hdoc]
  have hn : noticeUnknownKeyboardLayout device s1 = s2 := by
    rw [hs2]
    unfold noticeUnknownKeyboardLayout showInfo
    by_cases h : device.getKeyboardLayout = "unknown"
    · simp [h]
    · simp [h]
  have hbtn : s2.matrixPushButtons = s.matrixPushButtons := by
    obtain ⟨files, notes, hfr⟩ := loadMatrixLayoutJson_frame env name s
    rw [hload] at hfr
    simp only at hfr
    rw [hs2, hfr]
    split <;> rfl
  have hkey : ∀ key : String, doc.toObject.contains key = true →
      buildKeyboard env device s = buildKeyboardLang doc.toObject key s2 →
      ∃ v, doc.toObject.lookup key = some v ∧
        buildKeyboard env device s =
          (some (buildLayoutFromJson v.toObject s2).1, (buildLayoutFromJson v.toObject s2).2) ∧
        (buildKeyboard env device s).2.matrixPushButtons =
          s.matrixPushButtons ++ v.toObject.flatMap (fun it =>
            ((it.2.toArray.map QJsonValue.toObject).filter
              (fun obj => !(obj.ref "label").isNull)).map keyButtonFromJson) := by
    intro key hc hbk
    obtain ⟨v, hv⟩ := lookup_of_contains doc.toObject key hc
    have href : doc.toObject.ref key = v := by simp [QJsonObject.ref, hv]
    have hres : buildKeyboardLang doc.toObject key s2 =
        (some (buildLayoutFromJson v.toObject s2).1, (buildLayoutFromJson v.toObject s2).2) := by
      simp [buildKeyboardLang, href]
    refine ⟨v, hv, hbk.trans hres, ?_⟩
    rw [hbk, hres]
    simp only
    rw [buildLayoutFromJson_snd, hbtn]
  refine ⟨?_, ?_, ?_, ?_⟩
  · intro h
    refine hkey _ h ?_
    rw [hb]
    unfold buildKeyboardVariant
    simp [h, hn]
  · intro h hus
    refine hkey _ hus ?_
    rw [hb]
    unfold buildKeyboardVariant
    simp [h, hus, hn, List.find?]
  · intro h hus hde
    refine hkey _ hde ?_
    rw [hb]
    unfold buildKeyboardVariant
    simp [h, hus, hde, hn, List.find?]
  · intro h hus hde
    rw [hb]
    unfold buildKeyboardVariant
    simp [h, hus, hde, hn, List.find?]

/-- Witness for C5: on the example descriptor, which has the variants `German`
(one cell labelled `Z`) and `US` (one cell labelled `Y` and a spacer), a
keyboard reporting `Klingon` gets the layout and the buttons of the value
stored under `US`, so its one button is labelled `Y`; a keyboard reporting
`German` gets those of the value stored under `German`, so its one button is
labelled `Z`. -/
theorem buildKeyboard_selects_variant_witness :
    (∃ v, exampleKeys.lookup "US" = some v ∧
      buildKeyboard exampleEnv (exampleKeyboard "Klingon")
          (initCustomEditor (exampleKeyboard "Klingon")) =
        (some (buildLayoutFromJson v.toObject
            (loadMatrixLayoutJson exampleEnv "razerdefault22"
              (initCustomEditor (exampleKeyboard "Klingon"))).2).1,
         (buildLayoutFromJson v.toObject
            (loadMatrixLayoutJson exampleEnv "razerdefault22"
              (initCustomEditor (exampleKeyboard "Klingon"))).2).2) ∧
      (buildKeyboard exampleEnv (exampleKeyboard "Klingon")
          (initCustomEditor (exampleKeyboard "Klingon"))).2.matrixPushButtons =
        (initCustomEditor (exampleKeyboard "Klingon")).matrixPushButtons ++
          v.toObject.flatMap (fun it =>
            ((it.2.toArray.map QJsonValue.toObject).filter
              (fun obj => !(obj.ref "label").isNull)).map keyButtonFromJson)) ∧
    (∃ v, exampleKeys.lookup "German" = some v ∧
      buildKeyboard exampleEnv (exampleKeyboard "German")
          (initCustomEditor (exampleKeyboard "German")) =
        (some (buildLayoutFromJson v.toObject
            (loadMatrixLayoutJson exampleEnv "razerdefault22"
              (initCustomEditor (exampleKeyboard "German"))).2).1,
         (buildLayoutFromJson v.toObject
            (loadMatrixLayoutJson exampleEnv "razerdefault22"
              (initCustomEditor (exampleKeyboard "German"))).2).2) ∧
      (buildKeyboard exampleEnv (exampleKeyboard "German")
          (initCustomEditor (exampleKeyboard "German"))).2.matrixPushButtons =
        (initCustomEditor (exampleKeyboard "German")).matrixPushButtons ++
          v.toObject.flatMap (fun it =>
            ((it.2.toArray.map QJsonValue.toObject).filter
              (fun obj => !(obj.ref "label").isNull)).map keyButtonFromJson)) ∧
    (buildKeyboard exampleEnv (exampleKeyboard "Klingon")
        (initCustomEditor (exampleKeyboard "Klingon"))).2.matrixPushButtons.map
        (fun b => b.label) = ["Y"] ∧
    (buildKeyboard exampleEnv (exampleKeyboard "German")
        (initCustomEditor (exampleKeyboard "German"))).2.matrixPushButtons.map
        (fun b => b.label) = ["Z"] ∧
    (buildKeyboard exampleEnv (exampleKeyboard "Klingon")
        (initCustomEditor (exampleKeyboard "Klingon"))).1 =
      some (.vbox [⟨true, [.button 0, .spacer 66 69]⟩]) :=
  ⟨(buildKeyboard_selects_variant exampleEnv (exampleKeyboard "Klingon")
      (initCustomEditor (exampleKeyboard "Klingon")) "razerdefault22" (.object exampleKeys)
      (loadMatrixLayoutJson exampleEnv "razerdefault22"
        (initCustomEditor (exampleKeyboard "Klingon"))).2
      (loadMatrixLayoutJson exampleEnv "razerdefault22"
        (initCustomEditor (exampleKeyboard "Klingon"))).2
      (by decide) rfl rfl (if_neg (by decide)).symm).2.1 (by decide) (by decide),
   (buildKeyboard_selects_variant exampleEnv (exampleKeyboard "German")
      (initCustomEditor (exampleKeyboard "German")) "razerdefault22" (.object exampleKeys)
      (loadMatrixLayoutJson exampleEnv "razerdefault22"
        (initCustomEditor (exampleKeyboard "German"))).2
      (loadMatrixLayoutJson exampleEnv "razerdefault22"
        (initCustomEditor (exampleKeyboard "German"))).2
      (by decide) rfl rfl (if_neg (by decide)).symm).1 (by decide),
   by decide, by decide, by decide⟩

/-! ## C6: the layout file of a keyboard -/

/-- C6: `buildKeyboard` continues with the layout name `razerblade16` for
dimensions `(6, 16)`, `razerdefault22` for `(6, 22)` and `razerblade25` for
`(6, 25)`, and the first file it tries to open is the development file of that
name (any further file it tries is the production file of that name); for
every other pair of dimensions it yields no layout and returns the editor
unchanged, so no file was tried and no notice shown. -/
theorem buildKeyboard_layout_name (env : Env) (device : Device) (s : CustomEditor) :
    (∀ name : String,
      (s.dimens = ⟨6, 16⟩ ∧ name = "razerblade16") ∨
      (s.dimens = ⟨6, 22⟩ ∧ name = "razerdefault22") ∨
      (s.dimens = ⟨6, 25⟩ ∧ name = "razerblade25") →
      buildKeyboard env device s = buildKeyboardNamed env device name s ∧
      ∃ rest, (buildKeyboard env device s).2.openedFiles =
          s.openedFiles ++ ("../../data/matrix_layouts/" ++ name ++ ".json") :: rest ∧
        ∀ f ∈ rest, f = env.datadir ++ "/matrix_layouts/" ++ name ++ ".json") ∧
    (s.dimens ≠ ⟨6, 16⟩ → s.dimens ≠ ⟨6, 22⟩ → s.dimens ≠ ⟨6, 25⟩ →
      buildKeyboard env device s = (none, s)) := by
  constructor
  · intro name hcase
    have hname : keyboardLayoutName s.dimens = some name := by
      rcases hcase with ⟨hd, rfl⟩ | ⟨hd, rfl⟩ | ⟨hd, rfl⟩ <;> rw [hd] <;> rfl
    have hb : buildKeyboard env device s = buildKeyboardNamed env device name s := by
      simp [buildKeyboard, hname]
    refine ⟨hb, ?_⟩
    rw [hb, buildKeyboardNamed_openedFiles]
    exact loadMatrixLayoutJson_openedFiles env name s
  · intro h16 h22 h25
    have hname : keyboardLayoutName s.dimens = none := by
      unfold keyboardLayoutName
      have e : s.dimens = ⟨s.dimens.x, s.dimens.y⟩ := rfl
      rw [if_neg, if_neg, if_neg]
      · rintro ⟨hx, hy⟩
        exact h25 (by rw [e, hx, hy])
      · rintro ⟨hx, hy⟩
        exact h22 (by rw [e, hx, hy])
      · rintro ⟨hx, hy⟩
        exact h16 (by rw [e, hx, hy])
    simp [buildKeyboard, hname]

/-- Witness for C6: a keyboard of 6 rows and 16 columns continues with
`razerblade16`, and a keyboard of 5 rows and 16 columns gets no layout. -/
theorem buildKeyboard_layout_name_witness :
    (buildKeyboard noFilesEnv (constDevice "keyboard" 6 16 true)
        (initCustomEditor (constDevice "keyboard" 6 16 true)) =
      buildKeyboardNamed noFilesEnv (constDevice "keyboard" 6 16 true) "razerblade16"
        (initCustomEditor (constDevice "keyboard" 6 16 true)) ∧
      ∃ rest, (buildKeyboard noFilesEnv (constDevice "keyboard" 6 16 true)
          (initCustomEditor (constDevice "keyboard" 6 16 true))).2.openedFiles =
          (initCustomEditor (constDevice "keyboard" 6 16 true)).openedFiles ++
            ("../../data/matrix_layouts/" ++ "razerblade16" ++ ".json") :: rest ∧
        ∀ f ∈ rest, f = noFilesEnv.datadir ++ "/matrix_layouts/" ++ "razerblade16" ++ ".json") ∧
    buildKeyboard noFilesEnv (constDevice "keyboard" 5 16 true)
        (initCustomEditor (constDevice "keyboard" 5 16 true)) =
      (none, initCustomEditor (constDevice "keyboard" 5 16 true)) :=
  ⟨(buildKeyboard_layout_name noFilesEnv (constDevice "keyboard" 6 16 true)
      (initCustomEditor (constDevice "keyboard" 6 16 true))).1 "razerblade16"
      (Or.inl ⟨rfl, rfl⟩),
   (buildKeyboard_layout_name noFilesEnv (constDevice "keyboard" 5 16 true)
      (initCustomEditor (constDevice "keyboard" 5 16 true))).2
      (by decide) (by decide) (by decide)⟩

/-! ## C7: the strip of a mousepad -/

/-- C7: with dimensions `(1, 15)` `buildMousemat` returns one horizontal box
of exactly 15 buttons, the `i`-th of which is a new button labelled with the
decimal text of `i` (`0` to `14`) at matrix position `(0, i)`, appended to the
buttons of the editor in that order; with any other dimensions it returns no
layout and leaves the editor, and so its buttons, unchanged. -/
theorem buildMousemat_strip (s : CustomEditor) :
    (s.dimens = ⟨1, 15⟩ →
      buildMousemat s =
        (some (.hbox ⟨false, (List.range 15).map
            (fun i => HItem.button (s.matrixPushButtons.length + i))⟩),
         { s with
           matrixPushButtons := s.matrixPushButtons ++
             (List.zipWith
               (fun (label : String) (i : Nat) =>
                 ({ label := label, matrixPos := some (0, (i : Int)) } : MatrixPushButton))
               ["0", "1", "2", "3", "4", "5", "6", "7", "8", "9", "10", "11", "12", "13", "14"]
               (List.range 15)) })) ∧
    (s.dimens ≠ ⟨1, 15⟩ → buildMousemat s = (none, s)) := by
  constructor
  · intro h
    rw [buildMousemat_eq s h]
    have hl : (List.range 15).map (fun (i : Nat) =>
        ({ label := toString i, matrixPos := some (0, (i : Int)) } : MatrixPushButton)) =
        List.zipWith
          (fun (label : String) (i : Nat) =>
            ({ label := label, matrixPos := some (0, (i : Int)) } : MatrixPushButton))
          ["0", "1", "2", "3", "4", "5", "6", "7", "8", "9", "10", "11", "12", "13", "14"]
          (List.range 15) := by
      decide
    rw [hl]
  · intro h
    have e : s.dimens = ⟨s.dimens.x, s.dimens.y⟩ := rfl
    unfold buildMousemat
    rw [if_pos]
    by_contra hc
    push_neg at hc
    exact h (by rw [e, hc.1, hc.2])

/-- Witness for C7: the editor of a mousepad of 1 row and 15 columns, and the
editor of a mousepad of 1 row and 14 columns. -/
theorem buildMousemat_strip_witness :
    buildMousemat (initCustomEditor (constDevice "mousepad" 1 15 true)) =
      (some (.hbox ⟨false, (List.range 15).map
          (fun i => HItem.button
            ((initCustomEditor (constDevice "mousepad" 1 15 true)).matrixPushButtons.length + i))⟩),
       { initCustomEditor (constDevice "mousepad" 1 15 true) with
         matrixPushButtons :=
           (initCustomEditor (constDevice "mousepad" 1 15 true)).matrixPushButtons ++
             (List.zipWith
               (fun (label : String) (i : Nat) =>
                 ({ label := label, matrixPos := some (0, (i : Int)) } : MatrixPushButton))
               ["0", "1", "2", "3", "4", "5", "6", "7", "8", "9", "10", "11", "12", "13", "14"]
               (List.range 15)) }) ∧
    buildMousemat (initCustomEditor (constDevice "mousepad" 1 14 true)) =
      (none, initCustomEditor (constDevice "mousepad" 1 14 true)) :=
  ⟨(buildMousemat_strip (initCustomEditor (constDevice "mousepad" 1 15 true))).1 rfl,
   (buildMousemat_strip (initCustomEditor (constDevice "mousepad" 1 14 true))).2 (by decide)⟩

/-! ## C8: matrix discovery -/

/-- C8: when matrix discovery is requested, whatever the device type and the
dimensions `(rows, cols)`, the editor is built with the fallback grid: it has
exactly `rows * cols` buttons; the button at index `i * cols + j` (row-major
order) is labelled `i:j` and has matrix position `(i, j)`; no two buttons have
the same position; every button has a position within the bounds; the layout
added to the dialog is the vertical box of `rows` rows whose `i`-th row holds
the buttons `i * cols + j`; and no type-specific builder ran: no file was
opened, no notice shown and no warning written. -/
theorem discovery_uses_fallback_grid (env : Env) (device : Device) :
    (newCustomEditor env device true).matrixPushButtons.length =
      device.getMatrixDimensions.x * device.getMatrixDimensions.y ∧
    (∀ i j : Nat, i < device.getMatrixDimensions.x → j < device.getMatrixDimensions.y →
      (newCustomEditor env device true).matrixPushButtons[i * device.getMatrixDimensions.y + j]? =
        some { label := toString i ++ ":" ++ toString j,
               matrixPos := some ((i : Int), (j : Int)) }) ∧
    ((newCustomEditor env device true).matrixPushButtons.map (fun b => b.matrixPos)).Nodup ∧
    (∀ b ∈ (newCustomEditor env device true).matrixPushButtons,
      ∃ i j : Nat, i < device.getMatrixDimensions.x ∧ j < device.getMatrixDimensions.y ∧
        b.matrixPos = some ((i : Int), (j : Int))) ∧
    (newCustomEditor env device true).vbox =
      [buildMainControls,
       .vbox ((List.range device.getMatrixDimensions.x).map (fun i =>
         (⟨false, (List.range device.getMatrixDimensions.y).map
           (fun j => HItem.button (i * device.getMatrixDimensions.y + j))⟩ : QHBoxLayout)))] ∧
    (newCustomEditor env device true).openedFiles = [] ∧
    (newCustomEditor env device true).notices = [] ∧
    (newCustomEditor env device true).warnings = [] := by
  obtain ⟨log, hlog⟩ := newCustomEditor_eq env device true
  rw [hlog, selectDeviceLayout_discovery, buildFallback_eq]
  have hinit : (initCustomEditor device).matrixPushButtons = [] := rfl
  have hdim : (initCustomEditor device).dimens = device.getMatrixDimensions := rfl
  simp only [hinit, hdim, List.nil_append, List.length_nil, Nat.zero_add,
    map_reset_gridButtons]
  refine ⟨length_gridButtons _ _, ?_, nodup_gridPositions _ _, ?_, trivial, rfl, rfl, rfl⟩
  · intro i j hi hj
    exact getElem?_gridButtons _ _ i j hi hj
  · intro b hb
    obtain ⟨i, j, hi, hj, rfl⟩ := (mem_gridButtons _ _ b).mp hb
    exact ⟨i, j, hi, hj, rfl⟩

/-- Witness for C8: with discovery on a keyboard of 2 rows and 3 columns, the
button at index `1 * 3 + 2` is labelled `1:2` and sits at `(1, 2)`. -/
theorem discovery_uses_fallback_grid_witness :
    (newCustomEditor noFilesEnv (constDevice "keyboard" 2 3 true) true).matrixPushButtons[1 * 3 + 2]? =
      some { label := "1:2", matrixPos := some (1, 2) } :=
  (discovery_uses_fallback_grid noFilesEnv (constDevice "keyboard" 2 3 true)).2.1 1 2
    (by decide) (by decide)

/-! ## C9: every editor gets a layout -/

/-- C9: for every device, environment and value of the discovery flag, the
constructor ends with exactly two layouts in the dialog, the main controls and
a device layout; and whenever the device type is neither `keyboard` nor
`mousepad`, or it is `keyboard` and `buildKeyboard` yields no layout, or it is
`mousepad` and `buildMousemat` yields no layout, that device layout is the
fallback grid and the buttons of the editor are exactly the buttons of the
fallback grid, in row-major order. -/
theorem constructor_layout_or_fallback (env : Env) (device : Device) (discovery : Bool) :
    (∃ deviceLayout, (newCustomEditor env device discovery).vbox =
      [buildMainControls, deviceLayout]) ∧
    (((device.getDeviceType ≠ "keyboard" ∧ device.getDeviceType ≠ "mousepad") ∨
      (device.getDeviceType = "keyboard" ∧
        (buildKeyboard env device (initCustomEditor device)).1 = none) ∨
      (device.getDeviceType = "mousepad" ∧
        (buildMousemat (initCustomEditor device)).1 = none)) →
      (newCustomEditor env device discovery).vbox =
        [buildMainControls,
         .vbox ((List.range device.getMatrixDimensions.x).map (fun i =>
           (⟨false, (List.range device.getMatrixDimensions.y).map
             (fun j => HItem.button (i * device.getMatrixDimensions.y + j))⟩ : QHBoxLayout)))] ∧
      (newCustomEditor env device discovery).matrixPushButtons =
        (List.range device.getMatrixDimensions.x).flatMap (fun i =>
          (List.range device.getMatrixDimensions.y).map (fun (j : Nat) =>
            ({ label := toString i ++ ":" ++ toString j,
               matrixPos := some ((i : Int), (j : Int)) } : MatrixPushButton)))) := by
  obtain ⟨log, hlog⟩ := newCustomEditor_eq env device discovery
  constructor
  · exact ⟨_, by rw [hlog]⟩
  · intro hcase
    have hsel : discovery = true ∨
        (buildDeviceLayout env device discovery (initCustomEditor device)).1 = none := by
      cases discovery
      · right
        unfold buildDeviceLayout
        rcases hcase with ⟨hk, hm⟩ | ⟨hk, hnone⟩ | ⟨hm, hnone⟩
        · simp [hk, hm]
        · simpa [hk] using hnone
        · simpa [hm] using hnone
      · left
        rfl
    obtain ⟨hl, hb⟩ := selectDeviceLayout_fallback env device discovery
      (initCustomEditor device) hsel
    have hinit : (initCustomEditor device).matrixPushButtons = [] := rfl
    have hdim : (initCustomEditor device).dimens = device.getMatrixDimensions := rfl
    rw [hlog, gridButtons_literal]
    simp only [hl, hb, hinit, hdim, List.nil_append, List.length_nil, Nat.zero_add,
      map_reset_gridButtons]
    exact ⟨trivial, trivial⟩

/-- Witness for C9: a mouse of 2 rows and 3 columns (a type without a
builder) gets the fallback grid. -/
theorem constructor_layout_or_fallback_witness :
    (newCustomEditor noFilesEnv (constDevice "mouse" 2 3 true) false).vbox =
      [buildMainControls,
       .vbox ((List.range 2).map (fun i =>
         (⟨false, (List.range 3).map (fun j => HItem.button (i * 3 + j))⟩ : QHBoxLayout)))] ∧
    (newCustomEditor noFilesEnv (constDevice "mouse" 2 3 true) false).matrixPushButtons =
      (List.range 2).flatMap (fun i =>
        (List.range 3).map (fun (j : Nat) =>
          ({ label := toString i ++ ":" ++ toString j,
             matrixPos := some ((i : Int), (j : Int)) } : MatrixPushButton))) :=
  (constructor_layout_or_fallback noFilesEnv (constDevice "mouse" 2 3 true) false).2
    (Or.inl ⟨by decide, by decide⟩)

/-! ## C10: a failed push after a click -/

/-- C10 (as stated, refuted): on a device that refuses every call, a click on
the button of cell `(1, 2)` of the example editor succeeds, its row push fails
(the only device call is answered false), the model holds the painted colour
at `(1, 2)`, and no notice was shown. -/
theorem click_failed_push_silent_counterexample :
    (onMatrixPushButtonClicked (constDevice "keyboard" 2 3 false) 0 exampleEditor).map
        (fun s => (s.deviceCalls.map (fun e => e.2), cellAt s.colors 1 2, s.notices)) =
      some ([false], some (.rgb 255 0 0), []) := by
  decide

/-- C10 (amended): for every click on a button at an in-bounds position,
whatever the device answers (in particular when the row push fails), the click
handler shows no notice and writes no warning, and the grid model it leaves is
the one written by the paint or erase step. -/
theorem click_shows_no_notice (device : Device) (sender : Nat) (s : CustomEditor)
    (btn : MatrixPushButton) (row col : Int)
    (hwf : GridWF s)
    (hbtn : s.matrixPushButtons[sender]? = some btn)
    (hpos : btn.matrixPos = some (row, col))
    (hr0 : 0 ≤ row) (hr1 : row < s.dimens.x) (hc0 : 0 ≤ col) (hc1 : col < s.dimens.y) :
    ∃ s1, onMatrixPushButtonClicked device sender s = some s1 ∧
      s1.notices = s.notices ∧ s1.warnings = s.warnings ∧
      setCell s.colors row col (clickColor s) = some s1.colors := by
  obtain ⟨i, j, r, rfl, rfl, hr, hj, _⟩ := gridWF_row s hwf row col hr0 hr1 hc0 hc1
  refine ⟨_, onMatrixPushButtonClicked_spec device sender s btn i j r _ _ hbtn hpos hr hj
    rfl rfl, rfl, rfl, ?_⟩
  exact setCell_natCast s.colors i j r (clickColor s) hr hj

/-- Witness for C10 (amended): the click on the example editor with a device
that refuses every call. -/
theorem click_shows_no_notice_witness :
    ∃ s1, onMatrixPushButtonClicked (constDevice "keyboard" 2 3 false) 0 exampleEditor = some s1 ∧
      s1.notices = exampleEditor.notices ∧ s1.warnings = exampleEditor.warnings ∧
      setCell exampleEditor.colors 1 2 (clickColor exampleEditor) = some s1.colors :=
  click_shows_no_notice (constDevice "keyboard" 2 3 false) 0 exampleEditor
    { label := "k", matrixPos := some (1, 2) } 1 2
    ⟨rfl, by decide⟩ rfl rfl (by decide) (by decide) (by decide) (by decide)

/-! ## C11: the notice for an unknown keyboard layout -/

theorem loadMatrixLayoutJson_notices_of_not_null (env : Env) (jsonname : String)
    (s : CustomEditor) (h : (loadMatrixLayoutJson env jsonname s).1.isNull = false) :
    (loadMatrixLayoutJson env jsonname s).2.notices = s.notices := by
  unfold loadMatrixLayoutJson at h ⊢
  simp only at h ⊢
  split
  · rfl
  · split
    · rfl
    · rename_i h1 _ _ h2
      simp [h1, h2, QJsonDocument.isNull] at h

theorem noticeUnknownKeyboardLayout_notices (device : Device) (s : CustomEditor) :
    (noticeUnknownKeyboardLayout device s).notices =
      s.notices ++ (if device.getKeyboardLayout = "unknown"
        then [Notice.unknownKeyboardLayout] else []) := by
  unfold noticeUnknownKeyboardLayout showInfo
  by_cases h : device.getKeyboardLayout = "unknown"
  · simp [h]
  · simp [h]

/-- C11 (as stated, refuted): a keyboard of 6 by 22 reports the layout
`Klingon`; the descriptor loads and has no variant `Klingon`; `buildKeyboard`
falls back to a variant (it returns a layout) and shows no notice. -/
theorem buildKeyboard_unrecognized_layout_silent_counterexample :
    (exampleKeys.contains "Klingon",
      (buildKeyboard exampleEnv (exampleKeyboard "Klingon")
        (initCustomEditor (exampleKeyboard "Klingon"))).1.isSome,
      (buildKeyboard exampleEnv (exampleKeyboard "Klingon")
        (initCustomEditor (exampleKeyboard "Klingon"))).2.notices) =
      (false, true, []) := by
  decide

/-- C11 (amended): for every keyboard whose descriptor loaded (the document
is not null), `buildKeyboard` shows exactly one notice, the one for an unknown
keyboard layout, when the reported layout identifier is the text `unknown`,
and no notice for any other identifier, whether or not the descriptor has a
variant for it. -/
theorem buildKeyboard_notice_iff_unknown (env : Env) (device : Device) (s : CustomEditor)
    (name : String) (doc : QJsonDocument) (s1 : CustomEditor)
    (hname : keyboardLayoutName s.dimens = some name)
    (hload : loadMatrixLayoutJson env name s = (doc, s1))
    (hdoc : doc.isNull = false) :
    (buildKeyboard env device s).2.notices =
      s.notices ++ (if device.getKeyboardLayout = "unknown"
        then [Notice.unknownKeyboardLayout] else []) := by
  have hb : buildKeyboard env device s = buildKeyboardVariant device doc s1 := by
    simp [buildKeyboard, hname, buildKeyboardNamed, hload, hdoc]
  have hs1 : s1.notices = s.notices := by
    have h := loadMatrixLayoutJson_notices_of_not_null env name s (by rw [hload]; exact hdoc)
    rw [hload] at h
    exact h
  obtain ⟨extra, hvar⟩ := buildKeyboardVariant_frame device doc s1
  rw [hb, hvar]
  simp only [noticeUnknownKeyboardLayout_notices, hs1]

/-- Witness for C11 (amended): a keyboard that reports `unknown` gets one
notice on the example descriptor. -/
theorem buildKeyboard_notice_iff_unknown_witness :
    (buildKeyboard exampleEnv (exampleKeyboard "unknown")
        (initCustomEditor (exampleKeyboard "unknown"))).2.notices =
      (initCustomEditor (exampleKeyboard "unknown")).notices ++
        (if (exampleKeyboard "unknown").getKeyboardLayout = "unknown"
          then [Notice.unknownKeyboardLayout] else []) :=
  buildKeyboard_notice_iff_unknown exampleEnv (exampleKeyboard "unknown")
    (initCustomEditor (exampleKeyboard "unknown")) "razerdefault22" (.object exampleKeys)
    (loadMatrixLayoutJson exampleEnv "razerdefault22"
      (initCustomEditor (exampleKeyboard "unknown"))).2
    (by decide) rfl rfl

/-! ## C12: the two locations of a layout file -/

/-- C12 (as stated, refuted): the development file of `razerdefault22` opens
but does not parse, the production file opens and parses; `loadMatrixLayoutJson`
returns a null document, shows no notice, and has only tried the development
file. -/
theorem loadMatrixLayoutJson_unparseable_devel_counterexample :
    ((loadMatrixLayoutJson unparseableDevelEnv "razerdefault22" exampleEditor).1.isNull,
      (loadMatrixLayoutJson unparseableDevelEnv "razerdefault22" exampleEditor).2.notices,
      (loadMatrixLayoutJson unparseableDevelEnv "razerdefault22" exampleEditor).2.openedFiles,
      (match unparseableDevelEnv.openFile
          "/usr/share/razergenie/matrix_layouts/razerdefault22.json" with
        | .ok data => (unparseableDevelEnv.fromJson data).isNull
        | .error _ => true)) =
      (true, [], ["../../data/matrix_layouts/razerdefault22.json"], false) := by
  decide

/-- C12 (amended): `loadMatrixLayoutJson` tries to open the development file
first.  If it opens, the result is whatever its text parses to (a null
document when it does not parse); the production file is not tried and no
notice is shown.  If it does not open, the production file is tried; if that
opens, the result is whatever its text parses to, without a notice.  If
neither file opens, the result is a null document and one notice is shown. -/
theorem loadMatrixLayoutJson_by_open (env : Env) (jsonname : String) (s : CustomEditor) :
    (∀ data, env.openFile ("../../data/matrix_layouts/" ++ jsonname ++ ".json") = .ok data →
      loadMatrixLayoutJson env jsonname s =
        (env.fromJson data,
         { s with openedFiles := s.openedFiles ++
             ["../../data/matrix_layouts/" ++ jsonname ++ ".json"] })) ∧
    (∀ e data, env.openFile ("../../data/matrix_layouts/" ++ jsonname ++ ".json") = .error e →
      env.openFile (env.datadir ++ "/matrix_layouts/" ++ jsonname ++ ".json") = .ok data →
      loadMatrixLayoutJson env jsonname s =
        (env.fromJson data,
         { s with openedFiles := s.openedFiles ++
             ["../../data/matrix_layouts/" ++ jsonname ++ ".json",
              env.datadir ++ "/matrix_layouts/" ++ jsonname ++ ".json"] })) ∧
    (∀ e1 e2, env.openFile ("../../data/matrix_layouts/" ++ jsonname ++ ".json") = .error e1 →
      env.openFile (env.datadir ++ "/matrix_layouts/" ++ jsonname ++ ".json") = .error e2 →
      loadMatrixLayoutJson env jsonname s =
        (QJsonDocument.null,
         { s with
           openedFiles := s.openedFiles ++
             ["../../data/matrix_layouts/" ++ jsonname ++ ".json",
              env.datadir ++ "/matrix_layouts/" ++ jsonname ++ ".json"]
           notices := s.notices ++ [Notice.layoutFileFailedToLoad jsonname e2] })) := by
  refine ⟨?_, ?_, ?_⟩
  · intro data h
    simp [loadMatrixLayoutJson, h]
  · intro e data h1 h2
    simp [loadMatrixLayoutJson, h1, h2]
  · intro e1 e2 h1 h2
    simp [loadMatrixLayoutJson, h1, h2, showInfo]

/-- Witness for C12 (amended): with no file that opens, the loader tries both
files of `razerblade16`, returns a null document and shows one notice. -/
theorem loadMatrixLayoutJson_by_open_witness :
    loadMatrixLayoutJson noFilesEnv "razerblade16" exampleEditor =
      (QJsonDocument.null,
       { exampleEditor with
         openedFiles := exampleEditor.openedFiles ++
           ["../../data/matrix_layouts/" ++ "razerblade16" ++ ".json",
            noFilesEnv.datadir ++ "/matrix_layouts/" ++ "razerblade16" ++ ".json"]
         notices := exampleEditor.notices ++
           [Notice.layoutFileFailedToLoad "razerblade16" "No such file or directory"] }) :=
  (loadMatrixLayoutJson_by_open noFilesEnv "razerblade16" exampleEditor).2.2
    "No such file or directory" "No such file or directory" rfl rfl

/-! ## C13: the interaction mode and the selected colour -/

theorem updateKeyrow_mode (device : Device) (row : Int) (s s1 : CustomEditor) (r : Bool)
    (h : updateKeyrow device row s = some (r, s1)) :
    s1.drawStatus = s.drawStatus ∧ s1.selectedColor = s.selectedColor := by
  unfold updateKeyrow at h
  cases hrow : vectorAt s.colors row with
  | none => simp [hrow] at h
  | some rowColors =>
    simp only [hrow, Option.bind_eq_bind, Option.some_bind, Device.call] at h
    split at h
    · simp only [Option.some.injEq, Prod.mk.injEq] at h
      obtain ⟨_, rfl⟩ := h
      exact ⟨rfl, rfl⟩
    · simp only [Option.some.injEq, Prod.mk.injEq] at h
      obtain ⟨_, rfl⟩ := h
      exact ⟨rfl, rfl⟩

theorem onMatrixPushButtonClicked_mode (device : Device) (sender : Nat) (s s1 : CustomEditor)
    (h : onMatrixPushButtonClicked device sender s = some s1) :
    s1.drawStatus = s.drawStatus ∧ s1.selectedColor = s.selectedColor := by
  unfold onMatrixPushButtonClicked at h
  cases hbtn : s.matrixPushButtons[sender]? with
  | none => simp [hbtn] at h
  | some btn =>
    cases hpos : btn.matrixPos with
    | none => simp [hbtn, hpos] at h
    | some pos =>
      simp only [hbtn, hpos, Option.bind_eq_bind, Option.some_bind] at h
      cases hds : s.drawStatus
      · simp only [hds, Option.bind_eq_some] at h
        obtain ⟨colors, _, res, hpush, hres⟩ := h
        simp only [Option.some.injEq] at hres
        subst hres
        exact updateKeyrow_mode device pos.1 _ res.2 res.1 hpush
      · simp only [hds, Option.bind_eq_some] at h
        obtain ⟨colors, _, res, hpush, hres⟩ := h
        simp only [Option.some.injEq] at hres
        subst hres
        exact updateKeyrow_mode device pos.1 _ res.2 res.1 hpush

theorem buildKeyboard_mode (env : Env) (device : Device) (s : CustomEditor) :
    (buildKeyboard env device s).2.drawStatus = s.drawStatus ∧
    (buildKeyboard env device s).2.selectedColor = s.selectedColor := by
  unfold buildKeyboard
  split
  · exact ⟨rfl, rfl⟩
  · rename_i layout _
    unfold buildKeyboardNamed
    obtain ⟨files, notes, hload⟩ := loadMatrixLayoutJson_frame env layout s
    simp only
    split
    · rw [hload]
      exact ⟨rfl, rfl⟩
    · obtain ⟨extra, hvar⟩ := buildKeyboardVariant_frame device
        (loadMatrixLayoutJson env layout s).1 (loadMatrixLayoutJson env layout s).2
      obtain ⟨notes2, hnote⟩ := noticeUnknownKeyboardLayout_frame device
        (loadMatrixLayoutJson env layout s).2
      rw [hvar, hnote, hload]
      exact ⟨rfl, rfl⟩

theorem buildMousemat_mode (s : CustomEditor) :
    (buildMousemat s).2.drawStatus = s.drawStatus ∧
    (buildMousemat s).2.selectedColor = s.selectedColor := by
  by_cases h : s.dimens = ⟨1, 15⟩
  · rw [buildMousemat_eq s h]
    exact ⟨rfl, rfl⟩
  · have e : s.dimens = ⟨s.dimens.x, s.dimens.y⟩ := rfl
    have hn : buildMousemat s = (none, s) := by
      unfold buildMousemat
      rw [if_pos]
      by_contra hc
      push_neg at hc
      exact h (by rw [e, hc.1, hc.2])
    rw [hn]
    exact ⟨rfl, rfl⟩

theorem buildDeviceLayout_mode (env : Env) (device : Device) (discovery : Bool)
    (s : CustomEditor) :
    (buildDeviceLayout env device discovery s).2.drawStatus = s.drawStatus ∧
    (buildDeviceLayout env device discovery s).2.selectedColor = s.selectedColor := by
  unfold buildDeviceLayout
  cases discovery
  · by_cases hk : device.getDeviceType = "keyboard"
    · simpa [hk] using buildKeyboard_mode env device s
    · by_cases hm : device.getDeviceType = "mousepad"
      · simpa [hk, hm] using buildMousemat_mode s
      · simp [hk, hm]
  · simp [buildFallback_eq]

theorem selectDeviceLayout_mode (env : Env) (device : Device) (discovery : Bool)
    (s : CustomEditor) :
    (selectDeviceLayout env device discovery s).2.drawStatus = s.drawStatus ∧
    (selectDeviceLayout env device discovery s).2.selectedColor = s.selectedColor := by
  have hm := buildDeviceLayout_mode env device discovery s
  cases h : (buildDeviceLayout env device discovery s).1 with
  | none =>
    unfold selectDeviceLayout
    simp only [h, buildFallback_eq]
    exact hm
  | some deviceLayout =>
    rw [selectDeviceLayout_some env device discovery s deviceLayout h]
    exact hm

/-- C13: after construction the mode is `set` and the selected colour is
green; `setDrawStatusSet` makes the mode `set` and `setDrawStatusClear` makes
it `clear`, whatever it was, and neither touches the selected colour; a cell
click, `clearAll`, a row push and a colour-picker action leave the mode as it
was; a cell click, `clearAll` and a row push leave the selected colour as it
was; a colour-picker action that returns a valid colour makes it the selected
colour, and one that returns an invalid colour (a cancelled dialog) leaves the
whole editor unchanged. -/
theorem mode_and_selected_color (env : Env) (device : Device) (discovery : Bool)
    (s : CustomEditor) (getColor : QColor → QColor) :
    ((newCustomEditor env device discovery).drawStatus = .set ∧
      (newCustomEditor env device discovery).selectedColor = QColor.green) ∧
    ((setDrawStatusSet s).drawStatus = .set ∧
      (setDrawStatusSet s).selectedColor = s.selectedColor) ∧
    ((setDrawStatusClear s).drawStatus = .clear ∧
      (setDrawStatusClear s).selectedColor = s.selectedColor) ∧
    (∀ sender s1, onMatrixPushButtonClicked device sender s = some s1 →
      s1.drawStatus = s.drawStatus ∧ s1.selectedColor = s.selectedColor) ∧
    ((clearAll device s).drawStatus = s.drawStatus ∧
      (clearAll device s).selectedColor = s.selectedColor) ∧
    (∀ row r s1, updateKeyrow device row s = some (r, s1) →
      s1.drawStatus = s.drawStatus ∧ s1.selectedColor = s.selectedColor) ∧
    (colorButtonClicked getColor s).drawStatus = s.drawStatus ∧
    ((getColor s.btnColor).isValid = true →
      (colorButtonClicked getColor s).selectedColor = getColor s.btnColor) ∧
    ((getColor s.btnColor).isValid = false → colorButtonClicked getColor s = s) := by
  refine ⟨?_, ⟨rfl, rfl⟩, ⟨rfl, rfl⟩, ?_, ?_, ?_, ?_, ?_, ?_⟩
  · obtain ⟨log, hlog⟩ := newCustomEditor_eq env device discovery
    have hm := selectDeviceLayout_mode env device discovery (initCustomEditor device)
    rw [hlog]
    exact ⟨hm.1, hm.2⟩
  · intro sender s1 h
    exact onMatrixPushButtonClicked_mode device sender s s1 h
  · obtain ⟨log, hlog⟩ := clearAll_eq device s
    rw [hlog]
    exact ⟨rfl, rfl⟩
  · intro row r s1 h
    exact updateKeyrow_mode device row s s1 r h
  · unfold colorButtonClicked
    simp only
    split <;> rfl
  · intro hv
    simp [colorButtonClicked, hv]
  · intro hv
    simp [colorButtonClicked, hv]

/-- Witness for C13: on the example editor, a click on the button of cell
`(1, 2)` succeeds and keeps the mode and the selected colour; a colour picker
that returns blue makes blue the selected colour; a cancelled colour picker
changes nothing. -/
theorem mode_and_selected_color_witness :
    (∃ s1, onMatrixPushButtonClicked (constDevice "keyboard" 2 3 true) 0 exampleEditor = some s1 ∧
      s1.drawStatus = exampleEditor.drawStatus ∧
      s1.selectedColor = exampleEditor.selectedColor) ∧
    (colorButtonClicked (fun _ => QColor.rgb 0 0 255) exampleEditor).selectedColor =
      QColor.rgb 0 0 255 ∧
    colorButtonClicked (fun _ => QColor.invalid) exampleEditor = exampleEditor :=
  ⟨⟨(onMatrixPushButtonClicked (constDevice "keyboard" 2 3 true) 0 exampleEditor).get
      (by decide),
    by simp,
    (mode_and_selected_color noFilesEnv (constDevice "keyboard" 2 3 true) false exampleEditor
      (fun _ => QColor.invalid)).2.2.2.1 0 _ (by simp)⟩,
   (mode_and_selected_color noFilesEnv (constDevice "keyboard" 2 3 true) false exampleEditor
      (fun _ => QColor.rgb 0 0 255)).2.2.2.2.2.2.2.1 rfl,
   (mode_and_selected_color noFilesEnv (constDevice "keyboard" 2 3 true) false exampleEditor
      (fun _ => QColor.invalid)).2.2.2.2.2.2.2.2 rfl⟩

/-! ## C14: the buttons built from a layout descriptor -/

/-- C14 (as stated, refuted): the example variant has no enabled cell with a
matrix position (its cells are a labelled cell without a matrix position, a
disabled labelled cell, and a spacer), yet `buildLayoutFromJson` adds two
buttons to `matrixPushButtons`: one for the cell without a matrix position and
one for the disabled cell. -/
theorem buildLayoutFromJson_extra_buttons_counterexample :
    (buildLayoutFromJson exampleVariant
        (initCustomEditor (exampleKeyboard "US"))).2.matrixPushButtons.map
        (fun b => (b.label, b.matrixPos, b.enabled)) =
      [("A", none, true), ("B", some (0, 1), false)] := by
  decide

/-- C14 (amended): for every variant and every editor, `buildLayoutFromJson`
changes only `matrixPushButtons`, to which it appends exactly one button per
cell that has a label (a `label` entry that is not null), whether or not the
cell has a matrix position or is disabled, and none for a cell without a
label (a spacer).  (The buttons come in the order in which the code visits
the cells: the rows in the iteration order of the object, which is the list
order of `layout` here and the sorted order of the keys in Qt, not the order
of the document; the cells of a row in the order of its array.)  The button of a labelled cell carries the
label; it has width 60 (and height 63) when the cell has no `width` entry; it
has the matrix position given by the `matrix` entry, and none when there is no
such entry; it is enabled when the cell has no `disabled` entry and disabled
when the `disabled` entry is true. -/
theorem buildLayoutFromJson_buttons (layout : QJsonObject) (s : CustomEditor) :
    (buildLayoutFromJson layout s).2 =
      { s with
        matrixPushButtons := s.matrixPushButtons ++
          layout.flatMap (fun it =>
            ((it.2.toArray.map QJsonValue.toObject).filter
              (fun obj => !(obj.ref "label").isNull)).map keyButtonFromJson) } ∧
    (∀ obj : QJsonObject,
      (keyButtonFromJson obj).label = (obj.ref "label").toQString ∧
      (obj.contains "width" = false → (keyButtonFromJson obj).fixedSize = some (60, 63)) ∧
      (obj.contains "matrix" = false → (keyButtonFromJson obj).matrixPos = none) ∧
      (obj.contains "matrix" = true → (keyButtonFromJson obj).matrixPos =
        some (((obj.ref "matrix").toArray.ref 0).toInt,
              ((obj.ref "matrix").toArray.ref 1).toInt)) ∧
      (obj.contains "disabled" = false → (keyButtonFromJson obj).enabled = true) ∧
      (obj.lookup "disabled" = some (.bool true) → (keyButtonFromJson obj).enabled = false)) := by
  constructor
  · exact rowsFromJson_buttons layout ([], s)
  · intro obj
    refine ⟨?_, ?_, ?_, ?_, ?_, ?_⟩
    · cases hm : obj.contains "matrix" <;> cases hd : obj.contains "disabled" <;>
        simp [keyButtonFromJson, hm, hd, MatrixPushButton.setFixedSize,
          MatrixPushButton.setMatrixPos, MatrixPushButton.setEnabled]
    · intro hw
      cases hm : obj.contains "matrix" <;> cases hd : obj.contains "disabled" <;>
        simp [keyButtonFromJson, hw, hm, hd, MatrixPushButton.setFixedSize,
          MatrixPushButton.setMatrixPos, MatrixPushButton.setEnabled]
    · intro hm
      cases hd : obj.contains "disabled" <;>
        simp [keyButtonFromJson, hm, hd, MatrixPushButton.setFixedSize,
          MatrixPushButton.setEnabled]
    · intro hm
      cases hd : obj.contains "disabled" <;>
        simp [keyButtonFromJson, hm, hd, MatrixPushButton.setFixedSize,
          MatrixPushButton.setMatrixPos, MatrixPushButton.setEnabled]
    · intro hd
      cases hm : obj.contains "matrix" <;>
        simp [keyButtonFromJson, hm, hd, MatrixPushButton.setFixedSize,
          MatrixPushButton.setMatrixPos]
    · intro hd
      have hc := contains_of_lookup obj "disabled" _ hd
      cases hm : obj.contains "matrix" <;>
        simp [keyButtonFromJson, hm, hc, MatrixPushButton.setFixedSize,
          MatrixPushButton.setMatrixPos, MatrixPushButton.setEnabled]

/-- Witness for C14 (amended): the buttons built from the example variant are
the buttons of its two labelled cells; a cell with only a label gets a button
of width 60, without a matrix position, that is enabled. -/
theorem buildLayoutFromJson_buttons_witness :
    (buildLayoutFromJson exampleVariant (initCustomEditor (exampleKeyboard "US"))).2 =
      { initCustomEditor (exampleKeyboard "US") with
        matrixPushButtons := (initCustomEditor (exampleKeyboard "US")).matrixPushButtons ++
          exampleVariant.flatMap (fun it =>
            ((it.2.toArray.map QJsonValue.toObject).filter
              (fun obj => !(obj.ref "label").isNull)).map keyButtonFromJson) } ∧
    (keyButtonFromJson [("label", .string "A")]).fixedSize = some (60, 63) ∧
    (keyButtonFromJson [("label", .string "A")]).matrixPos = none ∧
    (keyButtonFromJson [("label", .string "A")]).enabled = true :=
  ⟨(buildLayoutFromJson_buttons exampleVariant (initCustomEditor (exampleKeyboard "US"))).1,
   ((buildLayoutFromJson_buttons exampleVariant (initCustomEditor (exampleKeyboard "US"))).2
      [("label", .string "A")]).2.1 (by decide),
   ((buildLayoutFromJson_buttons exampleVariant (initCustomEditor (exampleKeyboard "US"))).2
      [("label", .string "A")]).2.2.1 (by decide),
   ((buildLayoutFromJson_buttons exampleVariant (initCustomEditor (exampleKeyboard "US"))).2
      [("label", .string "A")]).2.2.2.2.1 (by decide)⟩

/-- A labelled cell whose `disabled` entry is false: the button is disabled
all the same, because only the presence of the entry is tested. -/
theorem keyButtonFromJson_disabled_false_example :
    (keyButtonFromJson [("label", .string "C"), ("disabled", .bool false)]).enabled = false := by
  decide

end RazerGenie
